import Mathlib

/-!
# Verification of the billing-assistant core engines

Shallow embedding of the two algorithmic engines of the telecom
billing-assistant backend: the what-if simulation engine
(`WhatIfService`, `services/WhatIfService.js`) and the anomaly detection
engine (`AnomalyDetectionService`, `services/AnomalyDetectionService.js`),
together with theorems settling the specification claims about them.

Modelling conventions:
* JavaScript numbers are embedded as exact rationals `ℚ`; `Math.sqrt`
  forces the z-score pipeline into `ℝ` (`Real.sqrt`).
* `x.toFixed(n)` followed by `parseFloat` is embedded as rounding to `n`
  decimal places with round-half-up (`round2` / `round1`).
* Asynchronous storage lookups (`Bill.findByUserAndPeriod`,
  `Plan.findByPlanId`, `AddOnPack.findOne`, `User.findByUserId`) are
  parametrised as an environment of `Option`-valued lookup functions;
  `none` models the "not found" outcome.
* `throw new Error(msg)` is embedded as `Except.error msg`; the
  re-wrapping `catch` blocks become explicit message prefixes.
* Purely presentational string fields that no computation ever reads back
  (`reason`, `suggested_action`, `details[]`, `recommendations[]`,
  `scenario_summary`, `effective_date`, `comparison_summary`,
  `analysis_date`, the stringified `z_score`) are omitted from the record
  types; every field that any computation or claim observes is kept.
-/

namespace FaturaBackend

/-! ## Data model (Mongoose schemas, `model/Bill.js` et al.)

The bill schema constrains every item `amount`, `unit_price` and
`quantity` with `min: 0`; theorems that depend on that schema invariant
take it as an explicit hypothesis. -/

structure BillItem where
  category : String
  subtype : String
  amount : ℚ
  quantity : ℚ
deriving DecidableEq, Repr

structure Bill where
  total_amount : ℚ
  items : List BillItem
deriving DecidableEq, Repr

structure Plan where
  plan_id : Nat
  monthly_price : ℚ
  quota_gb : ℚ
  quota_min : ℚ
  quota_sms : ℚ
  overage_gb : ℚ
  overage_min : ℚ
  overage_sms : ℚ
deriving DecidableEq, Repr

structure AddOnPack where
  addon_id : Nat
  name : String
  price : ℚ
  extra_gb : ℚ
  extra_min : ℚ
  extra_sms : ℚ
  compatible_plans : List Nat
deriving DecidableEq, Repr

structure UserRec where
  current_plan_id : Nat
deriving DecidableEq, Repr

/-- What-if scenario input.  Absent JSON fields are `none` / `false`
(absent boolean flags are falsy in the source). -/
structure Scenario where
  plan_id : Option Nat := none
  addons : Option (List Nat) := none
  disable_vas : Bool := false
  block_premium_sms : Bool := false
  enable_roaming_block : Bool := false
deriving DecidableEq, Repr

/-- Storage collaborator for one `WhatIfService` request: the current
bill and user for the requested `userId`/`period`, and the plan / add-on
catalogues (`AddOnPack.findOne {addon_id, is_active: true}` is modelled
by `addons` returning `none` for missing or inactive packs). -/
structure Env where
  bill : Option Bill
  user : Option UserRec
  plans : Nat → Option Plan
  addons : Nat → Option AddOnPack

/-- `calculateCategoryTotal(bill, category)` — identical helper in both
services: sum of `amount` over the items of one category. -/
def calculateCategoryTotal (bill : Bill) (category : String) : ℚ :=
  ((bill.items.filter (fun item => item.category == category)).map
    (fun item => item.amount)).sum

/-- `parseFloat(x.toFixed(2))`: round to 2 decimal places. -/
def round2 (x : ℚ) : ℚ := (round (x * 100) : ℤ) / 100

/-- `parseFloat(x.toFixed(1))`: round to 1 decimal place. -/
def round1 (x : ℚ) : ℚ := (round (x * 10) : ℤ) / 10

/-! ## WhatIfService (`services/WhatIfService.js`) -/

/-- `this.taxRate = 0.2` (20% VAT). -/
def taxRate : ℚ := 2 / 10

/-- The `usage` accumulator built by `WhatIfService.analyzeBill`. -/
structure UsageTotals where
  total_gb : ℚ
  total_minutes : ℚ
  total_sms : ℚ
deriving DecidableEq, Repr

/-- Result of `WhatIfService.analyzeBill`.  (The `categories` total map
also built there is never read by `calculateScenario`, which re-derives
category totals directly from the bill; it is omitted.) -/
structure BillAnalysis where
  usage : UsageTotals
deriving DecidableEq, Repr

/-- `WhatIfService.analyzeBill`: extract the realized overage quantities
of the current bill from its `data_overage` / `voice_overage` /
`sms_overage` line items (a `switch` on `item.category` guarded by
`item.subtype`). -/
def analyzeBill (bill : Bill) : BillAnalysis :=
  { usage :=
      bill.items.foldl
        (fun acc item =>
          if item.category == "data" && item.subtype == "data_overage" then
            { acc with total_gb := acc.total_gb + item.quantity }
          else if item.category == "voice" && item.subtype == "voice_overage" then
            { acc with total_minutes := acc.total_minutes + item.quantity }
          else if item.category == "sms" && item.subtype == "sms_overage" then
            { acc with total_sms := acc.total_sms + item.quantity }
          else acc)
        ⟨0, 0, 0⟩ }

/-- Return value of `WhatIfService.calculateUsageCharges`. -/
structure UsageCalculation where
  data_overage : ℚ
  voice_overage : ℚ
  sms_overage : ℚ
  total : ℚ
  data_overage_gb : ℚ
  voice_overage_min : ℚ
  sms_overage_sms : ℚ
  effective_quota_gb : ℚ
  effective_quota_min : ℚ
  effective_quota_sms : ℚ
deriving DecidableEq, Repr

/-- `WhatIfService.calculateUsageCharges(usage, plan, effectiveGB,
effectiveMin, effectiveSMS)`.  Source comment: "Gerçek kullanım + mevcut
aşım = toplam kullanım varsayımı" — hypothetical total consumption is
the new effective quota plus the realized overage, and the new overage
is the excess of that total over the same effective quota. -/
def calculateUsageCharges (usage : UsageTotals) (plan : Plan)
    (effectiveGB effectiveMin effectiveSMS : ℚ) : UsageCalculation :=
  let totalGB := effectiveGB + usage.total_gb
  let totalMinutes := effectiveMin + usage.total_minutes
  let totalSMS := effectiveSMS + usage.total_sms
  let dataOverageGB := max 0 (totalGB - effectiveGB)
  let voiceOverageMin := max 0 (totalMinutes - effectiveMin)
  let smsOverageSMS := max 0 (totalSMS - effectiveSMS)
  let dataOverageCost := dataOverageGB * plan.overage_gb
  let voiceOverageCost := voiceOverageMin * plan.overage_min
  let smsOverageCost := smsOverageSMS * plan.overage_sms
  { data_overage := dataOverageCost
    voice_overage := voiceOverageCost
    sms_overage := smsOverageCost
    total := dataOverageCost + voiceOverageCost + smsOverageCost
    data_overage_gb := dataOverageGB
    voice_overage_min := voiceOverageMin
    sms_overage_sms := smsOverageSMS
    effective_quota_gb := effectiveGB
    effective_quota_min := effectiveMin
    effective_quota_sms := effectiveSMS }

/-- The `breakdown{}` object assembled by `calculateScenario`; keys that
a given run never assigns are `none`. -/
structure Breakdown where
  plan : ℚ
  addons : Option ℚ
  data_overage : Option ℚ
  voice_overage : Option ℚ
  vas : Option ℚ
  premium_sms : Option ℚ
  roaming : Option ℚ
  one_off : Option ℚ
  discount : Option ℚ
  taxes : ℚ
deriving DecidableEq, Repr

/-- Return value of `WhatIfService.calculateScenario`. -/
structure ScenarioResult where
  new_total : ℚ
  breakdown : Breakdown
  risk_factors : List String
  usage_analysis : UsageCalculation
deriving DecidableEq, Repr

/-- `WhatIfService.calculateScenario(currentBill, currentPlan, user,
scenario, currentAnalysis)`: the ten-step recomputation of the bill
total under a scenario.  Unresolved add-on ids are skipped (`if (addon)`),
incompatible add-ons only append a risk factor. -/
def calculateScenario (env : Env) (currentBill : Bill) (currentPlan : Plan)
    (scenario : Scenario) (currentAnalysis : BillAnalysis) :
    Except String ScenarioResult :=
  -- 1. Plan change: `scenario.plan_id && scenario.plan_id !== currentPlan.plan_id`.
  let planStep : Except String Plan :=
    match scenario.plan_id with
    | some pid =>
        if pid ≠ currentPlan.plan_id then
          match env.plans pid with
          | none => Except.error "Yeni plan bulunamadı"
          | some newPlan => Except.ok newPlan
        else Except.ok currentPlan
    | none => Except.ok currentPlan
  match planStep with
  | Except.error e => Except.error e
  | Except.ok effectivePlan =>
      let total1 : ℚ := effectivePlan.monthly_price
      -- 2. Add-on packs.
      let addonList : List Nat := scenario.addons.getD []
      let hasAddons : Bool :=
        match scenario.addons with
        | some l => decide (0 < l.length)
        | none => false
      let resolvedAddons : List AddOnPack := addonList.filterMap env.addons
      let totalAddonGB : ℚ := (resolvedAddons.map AddOnPack.extra_gb).sum
      let totalAddonMin : ℚ := (resolvedAddons.map AddOnPack.extra_min).sum
      let totalAddonSMS : ℚ := (resolvedAddons.map AddOnPack.extra_sms).sum
      let addonCost : ℚ := (resolvedAddons.map AddOnPack.price).sum
      let riskFactors : List String :=
        resolvedAddons.filterMap (fun addon =>
          if effectivePlan.plan_id ∈ addon.compatible_plans then none
          else some (addon.name ++ " bu planla uyumlu olmayabilir"))
      let total2 : ℚ := if hasAddons then total1 + addonCost else total1
      -- 3. Effective quotas.
      let effectiveQuotaGB := effectivePlan.quota_gb + totalAddonGB
      let effectiveQuotaMin := effectivePlan.quota_min + totalAddonMin
      let effectiveQuotaSMS := effectivePlan.quota_sms + totalAddonSMS
      -- 4. Overage recomputation.
      let usageCalculation :=
        calculateUsageCharges currentAnalysis.usage effectivePlan
          effectiveQuotaGB effectiveQuotaMin effectiveQuotaSMS
      let total3 := total2 + usageCalculation.total
      -- 5. VAS.
      let vasCost := calculateCategoryTotal currentBill "vas"
      let total4 := if scenario.disable_vas then total3 else total3 + vasCost
      -- 6. Premium SMS.
      let premiumSMSCost := calculateCategoryTotal currentBill "premium_sms"
      let total5 :=
        if scenario.block_premium_sms then total4 else total4 + premiumSMSCost
      -- 7. Roaming.
      let roamingCost := calculateCategoryTotal currentBill "roaming"
      let total6 :=
        if scenario.enable_roaming_block then total5 else total5 + roamingCost
      -- 8. One-off charges and discounts.
      let oneOffCost := calculateCategoryTotal currentBill "one_off"
      let discountAmount := calculateCategoryTotal currentBill "discount"
      let total7 := total6 + oneOffCost - discountAmount
      -- 9. Taxes (20% on the running total).
      let taxes := total7 * taxRate
      let total8 := total7 + taxes
      Except.ok
        { new_total := round2 total8
          breakdown :=
            { plan := effectivePlan.monthly_price
              addons := if hasAddons then some addonCost else none
              data_overage :=
                if 0 < usageCalculation.data_overage then
                  some usageCalculation.data_overage
                else none
              voice_overage :=
                if 0 < usageCalculation.voice_overage then
                  some usageCalculation.voice_overage
                else none
              vas := if scenario.disable_vas then none else some vasCost
              premium_sms :=
                if scenario.block_premium_sms then none else some premiumSMSCost
              roaming :=
                if scenario.enable_roaming_block then none else some roamingCost
              one_off := if 0 < oneOffCost then some oneOffCost else none
              discount :=
                if 0 < discountAmount then some (-discountAmount) else none
              taxes := taxes }
          risk_factors := riskFactors
          usage_analysis := usageCalculation }

/-- Return value of `WhatIfService.calculateWhatIf`. -/
structure WhatIfResult where
  current_total : ℚ
  new_total : ℚ
  saving : ℚ
  saving_percent : ℚ
  breakdown : Breakdown
  risk_factors : List String
deriving DecidableEq, Repr

/-- The `catch` in `calculateWhatIf` rethrows every error as
"What-if hesaplama hatası: <message>". -/
def wrapWhatIfError (e : String) : String := "What-if hesaplama hatası: " ++ e

/-- `WhatIfService.calculateWhatIf(userId, period, scenario)`:
precondition lookups, bill analysis, scenario computation, and the
saving / saving-percent summary (2 and 1 decimal places). -/
def calculateWhatIf (env : Env) (scenario : Scenario) :
    Except String WhatIfResult :=
  match env.bill with
  | none => Except.error (wrapWhatIfError "Mevcut dönem faturası bulunamadı")
  | some currentBill =>
      match env.user with
      | none => Except.error (wrapWhatIfError "Kullanıcı bulunamadı")
      | some user =>
          match env.plans user.current_plan_id with
          | none => Except.error (wrapWhatIfError "Mevcut plan bulunamadı")
          | some currentPlan =>
              let currentAnalysis := analyzeBill currentBill
              match calculateScenario env currentBill currentPlan scenario
                  currentAnalysis with
              | Except.error e => Except.error (wrapWhatIfError e)
              | Except.ok scenarioResult =>
                  let saving :=
                    currentBill.total_amount - scenarioResult.new_total
                  let savingPercent :=
                    saving / currentBill.total_amount * 100
                  Except.ok
                    { current_total := currentBill.total_amount
                      new_total := scenarioResult.new_total
                      saving := round2 saving
                      saving_percent := round1 savingPercent
                      breakdown := scenarioResult.breakdown
                      risk_factors := scenarioResult.risk_factors }

/-! ### Multi-scenario comparison (`WhatIfService.compareScenarios`) -/

/-- One element of the `results` array built by `compareScenarios`.
(The cosmetic `name`, `details`, `scenario_type`, `feasibility` and
`risk_level` tags are omitted; `error` is `none` for successful runs.) -/
structure ComparisonEntry where
  id : Nat
  saving : ℚ
  total : ℚ
  rank : Nat
  error : Option String
deriving DecidableEq, Repr

/-- The entry built for the scenario at (0-based) index `i`: a successful
`calculateWhatIf` yields `rank 0` (assigned later); a thrown error is
caught and recorded with `saving 0`, the current bill total and
`rank 999`. -/
def scenarioEntry (env : Env) (bill : Bill) (i : Nat) (scenario : Scenario) :
    ComparisonEntry :=
  match calculateWhatIf env scenario with
  | Except.ok r =>
      { id := i + 1, saving := r.saving, total := r.new_total, rank := 0,
        error := none }
  | Except.error e =>
      { id := i + 1, saving := 0, total := bill.total_amount, rank := 999,
        error := some e }

/-- The `results` array of `compareScenarios` (one entry per scenario,
in input order). -/
def comparisonResults (env : Env) (bill : Bill) (scenarios : List Scenario) :
    List ComparisonEntry :=
  scenarios.enum.map (fun p => scenarioEntry env bill p.1 p.2)

/-- Comparator of `validResults.sort((a, b) => b.saving - a.saving)`:
`a` may precede `b` iff `a.saving ≥ b.saving`; the engine's array sort
is stable, modelled by the stable `List.mergeSort`. -/
def savingDescLE (a b : ComparisonEntry) : Bool := decide (b.saving ≤ a.saving)

/-- `validResults` after the in-place descending sort by `saving`. -/
def comparisonSortedValid (env : Env) (bill : Bill)
    (scenarios : List Scenario) : List ComparisonEntry :=
  ((comparisonResults env bill scenarios).filter
    (fun r => r.error.isNone)).mergeSort savingDescLE

/-- Return value of `compareScenarios` (cosmetic `comparison_summary`
and `analysis_date` omitted). -/
structure ComparisonResult where
  current_total : ℚ
  scenarios : List ComparisonEntry
  best_scenario : Option ComparisonEntry
deriving DecidableEq, Repr

/-- The in-place rank assignment `validResults.forEach((result, index)
=> result.rank = index + 1)`: it mutates the entry objects shared with
the `results` array, so an entry's final rank is the 1-based position of
its unique `id` in the sorted order; errored entries keep rank 999. -/
def rankUpdate (env : Env) (bill : Bill) (scenarios : List Scenario)
    (r : ComparisonEntry) : ComparisonEntry :=
  if r.error.isNone then
    { r with
      rank :=
        (comparisonSortedValid env bill scenarios).findIdx
          (fun x => x.id == r.id) + 1 }
  else r

/-- Body of `compareScenarios` after the current bill has been found:
build all entries, sort the successful ones descending by saving, and
assign the dense ranks.  `best_scenario` is the head of the sorted
list. -/
def compareScenariosCore (env : Env) (bill : Bill)
    (scenarios : List Scenario) : ComparisonResult :=
  { current_total := bill.total_amount
    scenarios :=
      (comparisonResults env bill scenarios).map
        (rankUpdate env bill scenarios)
    best_scenario :=
      match comparisonSortedValid env bill scenarios with
      | [] => none
      | r :: _ => some { r with rank := 1 } }

/-- `WhatIfService.compareScenarios(userId, period, scenarios)`: fails
only when the current bill is missing (wrapped by its `catch` as
"Senaryo karşılaştırma hatası: …"); individual scenario errors are
caught per scenario and never propagate. -/
def compareScenarios (env : Env) (scenarios : List Scenario) :
    Except String ComparisonResult :=
  match env.bill with
  | none =>
      Except.error
        ("Senaryo karşılaştırma hatası: " ++ "Mevcut dönem faturası bulunamadı")
  | some bill => Except.ok (compareScenariosCore env bill scenarios)

/-! ## AnomalyDetectionService (`services/AnomalyDetectionService.js`) -/

/-- `this.defaultThreshold = 0.8`. -/
def defaultThreshold : ℚ := 8 / 10

/-- `this.zScoreThreshold = 2`. -/
def zScoreThreshold : ℝ := 2

inductive Severity
  | high
  | medium
  | low
deriving DecidableEq, Repr

inductive AnomalyType
  | statistical
  | percentage_increase
  | new_item
  | roaming_new
  | roaming_excessive
  | usage_spike
deriving DecidableEq, Repr

/-- One emitted anomaly record.  The numeric fields `current_amount` and
`historical_average` are `Option`-valued because the `roaming_excessive`
and `usage_spike` records omit one or both of them (undefined in JS). -/
structure Anomaly where
  type : AnomalyType
  category : String
  current_amount : Option ℚ
  historical_average : Option ℚ
  delta : String
  severity : Severity
  first_occurrence : Bool
deriving DecidableEq, Repr

/-- Result of `performStatisticalAnalysis`: exact rational mean /
population variance / percentage change, with `Math.sqrt` carrying the
standard deviation and z-score into `ℝ`. -/
structure StatAnalysis where
  mean : ℚ
  variance : ℚ
  stdDev : ℝ
  zScore : ℝ
  percentageChange : ℚ

/-- `AnomalyDetectionService.performStatisticalAnalysis(currentValue,
historicalValues)`: mean, population variance, standard deviation, the
guarded z-score (`stdDev > 0 ? (current - mean) / stdDev : 0`) and the
guarded percentage change (`mean > 0 ? ((current - mean) / mean) * 100 :
0`). -/
noncomputable def performStatisticalAnalysis (currentValue : ℚ)
    (historicalValues : List ℚ) : StatAnalysis :=
  let mean : ℚ := historicalValues.sum / (historicalValues.length : ℚ)
  let variance : ℚ :=
    (historicalValues.map (fun v => (v - mean) ^ 2)).sum /
      (historicalValues.length : ℚ)
  let stdDev : ℝ := Real.sqrt (variance : ℝ)
  let zScore : ℝ :=
    if 0 < stdDev then ((currentValue : ℝ) - (mean : ℝ)) / stdDev else 0
  let percentageChange : ℚ :=
    if 0 < mean then (currentValue - mean) / mean * 100 else 0
  { mean := mean, variance := variance, stdDev := stdDev, zScore := zScore,
    percentageChange := percentageChange }

/-- `getSeverity(zScore)` — called on `Math.abs(zScore)`. -/
noncomputable def getSeverity (zScore : ℝ) : Severity :=
  if 3 ≤ zScore then Severity.high
  else if 2 ≤ zScore then Severity.medium
  else Severity.low

/-- `getSeverityByPercentage(percentage)`. -/
def getSeverityByPercentage (percentage : ℚ) : Severity :=
  if 200 ≤ percentage then Severity.high
  else if 100 ≤ percentage then Severity.medium
  else Severity.low

/-- The fixed category list of `detectCategoryAnomalies`. -/
def categoryAnomalyCategories : List String :=
  ["data", "voice", "sms", "premium_sms", "vas", "roaming", "monthly_fee",
   "data_overage", "voice_overage", "plan", "one_off", "discount"]

/-- The `"statistical"` anomaly object pushed by the z-score rule.
`toFixed(0)` of the delta is modelled by integer rounding. -/
noncomputable def statisticalAnomaly (category : String) (currentAmount : ℚ)
    (analysis : StatAnalysis) : Anomaly :=
  { type := AnomalyType.statistical, category := category,
    current_amount := some currentAmount,
    historical_average := some analysis.mean,
    delta :=
      (if 0 < analysis.percentageChange then "+" else "") ++
        toString (round analysis.percentageChange) ++ "%",
    severity := getSeverity |analysis.zScore|,
    first_occurrence := false }

/-- The `"percentage_increase"` anomaly object pushed by the
percentage-change rule. -/
def percentageAnomaly (category : String) (currentAmount : ℚ)
    (analysis : StatAnalysis) : Anomaly :=
  { type := AnomalyType.percentage_increase, category := category,
    current_amount := some currentAmount,
    historical_average := some analysis.mean,
    delta := "+" ++ toString (round analysis.percentageChange) ++ "%",
    severity := getSeverityByPercentage analysis.percentageChange,
    first_occurrence := false }

/-- The statistics consulted by the category rules for one category:
current amount vs. the historical per-bill totals. -/
noncomputable def categoryAnalysis (currentBill : Bill)
    (historicalBills : List Bill) (category : String) : StatAnalysis :=
  performStatisticalAnalysis (calculateCategoryTotal currentBill category)
    (historicalBills.map (fun b => calculateCategoryTotal b category))

/-- Per-category body of the `detectCategoryAnomalies` loop: skip
categories with no historical data points, otherwise apply exactly one
rule, z-score first (`Math.abs(zScore) > 2`), then percentage change
(`percentageChange > threshold * 100`). -/
noncomputable def categoryDecision (currentBill : Bill)
    (historicalBills : List Bill) (threshold : ℚ) (category : String) :
    Option Anomaly :=
  let currentAmount := calculateCategoryTotal currentBill category
  let historicalAmounts :=
    historicalBills.map (fun b => calculateCategoryTotal b category)
  if historicalAmounts.length = 0 then none
  else
    let analysis := performStatisticalAnalysis currentAmount historicalAmounts
    if zScoreThreshold < |analysis.zScore| then
      some (statisticalAnomaly category currentAmount analysis)
    else if threshold * 100 < analysis.percentageChange then
      some (percentageAnomaly category currentAmount analysis)
    else none

/-- `AnomalyDetectionService.detectCategoryAnomalies(currentBill,
historicalBills, threshold)`: the per-category decisions collected in
category order (the body of the loop never throws, so its `try/catch`
is inert). -/
noncomputable def detectCategoryAnomalies (currentBill : Bill)
    (historicalBills : List Bill) (threshold : ℚ) : List Anomaly :=
  categoryAnomalyCategories.filterMap
    (categoryDecision currentBill historicalBills threshold)

/-- The fixed category list of `detectNewItemAnomalies`. -/
def newItemCategories : List String :=
  ["data", "voice", "sms", "premium_sms", "vas", "roaming"]

/-- Per-category body of the `detectNewItemAnomalies` loop: emit a
`new_item` anomaly when the current total is positive and no historical
total is positive (`historicalAmounts.some(amount => amount > 0)` is
false).  The source delta literal is the Turkish `"YENİ"` ("NEW"). -/
def newItemDecision (currentBill : Bill) (historicalBills : List Bill)
    (category : String) : Option Anomaly :=
  let currentAmount := calculateCategoryTotal currentBill category
  let historicalAmounts :=
    historicalBills.map (fun b => calculateCategoryTotal b category)
  let hasHistoricalUsage :=
    historicalAmounts.any (fun amount => decide (0 < amount))
  if !hasHistoricalUsage && decide (0 < currentAmount) then
    some
      { type := AnomalyType.new_item, category := category,
        current_amount := some currentAmount,
        historical_average := some 0,
        delta := "YENİ",
        severity :=
          if 50 < currentAmount then Severity.high else Severity.medium,
        first_occurrence := true }
  else none

/-- `AnomalyDetectionService.detectNewItemAnomalies(currentBill,
historicalBills)`: the per-category decisions collected in category
order. -/
def detectNewItemAnomalies (currentBill : Bill)
    (historicalBills : List Bill) : List Anomaly :=
  newItemCategories.filterMap (newItemDecision currentBill historicalBills)

/-- Monthly roaming aggregate returned by
`getCurrentMonthRoamingUsage` / `getPreviousMonthRoamingUsage`. -/
structure RoamingUsage where
  roaming_mb : ℚ
  roaming_days : Nat
  roaming_cost : ℚ
deriving DecidableEq, Repr

/-- `AnomalyDetectionService.detectRoamingAnomalies`: `roaming_new` when
current roaming is positive and previous-month roaming is zero,
independently `roaming_excessive` when current roaming exceeds 1000 MB
(both may fire).  The `usage_details` payload is omitted. -/
def detectRoamingAnomalies (currentUsage previousUsage : RoamingUsage) :
    List Anomaly :=
  (if 0 < currentUsage.roaming_mb ∧ previousUsage.roaming_mb = 0 then
    [{ type := AnomalyType.roaming_new, category := "roaming",
       current_amount := some currentUsage.roaming_cost,
       historical_average := some 0, delta := "YENİ ROAMING",
       severity := Severity.high, first_occurrence := true }]
  else []) ++
  (if 1000 < currentUsage.roaming_mb then
    [{ type := AnomalyType.roaming_excessive, category := "roaming",
       current_amount := some currentUsage.roaming_cost,
       historical_average := none,
       delta := toString currentUsage.roaming_mb ++ "MB",
       severity := Severity.high, first_occurrence := false }]
  else [])

/-- One `UsageDaily` record (fields the spike detector reads). -/
structure DailyUsage where
  mb_used : ℚ
  usage_date : Nat
deriving DecidableEq, Repr

/-- `AnomalyDetectionService.detectUsagePatternAnomalies`: one
`usage_spike` anomaly for the highest-usage day among the days exceeding
three times the daily average, if any (`reduce` without seed starts from
the first high-usage day). -/
def detectUsagePatternAnomalies (dailyUsage : List DailyUsage) :
    List Anomaly :=
  if dailyUsage.length = 0 then []
  else
    let avgDailyMB :=
      (dailyUsage.map DailyUsage.mb_used).sum / (dailyUsage.length : ℚ)
    let highUsageDays :=
      dailyUsage.filter (fun day => decide (avgDailyMB * 3 < day.mb_used))
    match highUsageDays with
    | [] => []
    | d :: ds =>
        let maxUsageDay :=
          ds.foldl (fun mx day => if mx.mb_used < day.mb_used then day else mx) d
        [{ type := AnomalyType.usage_spike, category := "data",
           current_amount := none, historical_average := none,
           delta := toString maxUsageDay.mb_used ++ "MB",
           severity := Severity.medium, first_occurrence := false }]

/-- `AnomalyDetectionService.calculateRiskScore(anomalies, totalAmount)`:
0 for an empty list; otherwise per-anomaly severity points (3/2/1),
first-occurrence bonus, critical-category bonus, bill-size bonuses, and
`Math.min(10, score)`. -/
def calculateRiskScore (anomalies : List Anomaly) (totalAmount : ℚ) : ℚ :=
  if anomalies.length = 0 then 0
  else
    let score : ℚ :=
      anomalies.foldl
        (fun s a =>
          let s := s +
            (match a.severity with
             | Severity.high => 3
             | Severity.medium => 2
             | Severity.low => 1)
          let s := if a.first_occurrence then s + 1 else s
          if a.category == "premium_sms" || a.category == "roaming" then s + 1
          else s)
        0
    let score := if 500 < totalAmount then score + 1 else score
    let score := if 1000 < totalAmount then score + 2 else score
    min 10 score

/-- Return value of `detectAnomalies` (`analysis_period`,
`comparison_months` and `threshold_used` echoes omitted). -/
structure AnomalyReport where
  anomalies : List Anomaly
  total_anomalies : Nat
  risk_score : ℚ
deriving DecidableEq, Repr

/-- Storage collaborator for one `detectAnomalies` request: the current
bill (if any), the trailing-window historical bills, the two monthly
roaming aggregates and the daily usage records of the target period
(the roaming/usage getters catch their own lookup errors and degrade to
zeros / the empty list, so they are modelled as plain data). -/
structure AnomalyEnv where
  currentBill : Option Bill
  historicalBills : List Bill
  currentRoaming : RoamingUsage
  previousRoaming : RoamingUsage
  dailyUsage : List DailyUsage

/-- `AnomalyDetectionService.detectAnomalies(userId, period, threshold)`:
concatenate the four detectors' findings in fixed order and attach the
risk score; a missing current bill throws, rewrapped by the `catch` as
"Anomali tespiti hatası: …". -/
noncomputable def detectAnomalies (env : AnomalyEnv) (threshold : ℚ) :
    Except String AnomalyReport :=
  match env.currentBill with
  | none =>
      Except.error
        ("Anomali tespiti hatası: " ++ "Mevcut dönem faturası bulunamadı")
  | some currentBill =>
      let categoryAnomalies :=
        detectCategoryAnomalies currentBill env.historicalBills threshold
      let newItemAnomalies :=
        detectNewItemAnomalies currentBill env.historicalBills
      let roamingAnomalies :=
        detectRoamingAnomalies env.currentRoaming env.previousRoaming
      let usageAnomalies := detectUsagePatternAnomalies env.dailyUsage
      let allAnomalies :=
        categoryAnomalies ++ newItemAnomalies ++ roamingAnomalies ++
          usageAnomalies
      Except.ok
        { anomalies := allAnomalies
          total_anomalies := allAnomalies.length
          risk_score :=
            calculateRiskScore allAnomalies currentBill.total_amount }

/-! ### Anomaly history (`AnomalyDetectionService.getAnomalyHistory`) -/

/-- One entry of the `history` array. -/
structure HistoryRecord where
  period : String
  anomaly_count : Nat
  risk_score : ℚ
  major_anomalies : List Anomaly
  summary : String
deriving DecidableEq, Repr

/-- `generatePeriodSummary(anomalies, period)` (the `period` argument is
never read by the source body and is dropped). -/
def generatePeriodSummary (anomalies : List Anomaly) : String :=
  if anomalies.length = 0 then "Anomali tespit edilmedi"
  else
    let highSeverity :=
      (anomalies.filter (fun a => decide (a.severity = Severity.high))).length
    if 0 < highSeverity then
      toString highSeverity ++ " yüksek riskli anomali tespit edildi"
    else toString anomalies.length ++ " anomali tespit edildi"

/-- The history record pushed when `detectAnomalies` succeeds for a
period. -/
def successRecord (period : String) (report : AnomalyReport) : HistoryRecord :=
  { period := period
    anomaly_count := report.total_anomalies
    risk_score := report.risk_score
    major_anomalies :=
      report.anomalies.filter (fun a => decide (a.severity = Severity.high))
    summary := generatePeriodSummary report.anomalies }

/-- The zero record pushed when `detectAnomalies` throws for a period
("Veri yoksa boş kayıt ekle"). -/
def noDataRecord (period : String) : HistoryRecord :=
  { period := period, anomaly_count := 0, risk_score := 0,
    major_anomalies := [], summary := "Veri bulunamadı" }

/-- `AnomalyDetectionService.getAnomalyHistory(userId, months)`: for each
of the `months` trailing periods run `detectAnomalies` (threshold 0.7),
in-loop `catch` degrading a failed period to `noDataRecord`; finally the
returned array is `history.filter(h => h.anomaly_count > 0 ||
h.summary !== "Veri bulunamadı")`.  `periods i` is the period string of
the i-th trailing month and `detect` the outcome of `detectAnomalies`
for it (`none` = thrown). -/
def getAnomalyHistory (months : Nat) (periods : Nat → String)
    (detect : String → Option AnomalyReport) : List HistoryRecord :=
  let history :=
    (List.range months).map (fun i =>
      match detect (periods i) with
      | some report => successRecord (periods i) report
      | none => noDataRecord (periods i))
  history.filter (fun h =>
    decide (0 < h.anomaly_count) || !(h.summary == "Veri bulunamadı"))

/-- The per-anomaly contribution to the risk score as the specification
states it: 3/2/1 severity points, +1 for a first occurrence, +1 for the
critical categories. -/
def claimRiskPoints (a : Anomaly) : ℚ :=
  (match a.severity with
   | Severity.high => 3
   | Severity.medium => 2
   | Severity.low => 1) +
  (if a.first_occurrence then 1 else 0) +
  (if a.category = "premium_sms" ∨ a.category = "roaming" then 1 else 0)

/-- Current bill for the C1 counterexample: a 2 GB data-overage line item
(category `data`, subtype `data_overage`) on a 10 GB plan. -/
def c1Bill : Bill :=
  { total_amount := 205
    items :=
      [{ category := "data", subtype := "data_overage", amount := 17,
         quantity := 2 },
       { category := "monthly_fee", subtype := "recurring", amount := 100,
         quantity := 1 }] }

/-- The user's current 10 GB plan. -/
def c1CurrentPlan : Plan :=
  { plan_id := 1, monthly_price := 100, quota_gb := 10, quota_min := 500,
    quota_sms := 100, overage_gb := 8, overage_min := 1, overage_sms := 1 }

/-- A far larger plan (1000 GB quota) the scenario switches to. -/
def c1BigPlan : Plan :=
  { plan_id := 2, monthly_price := 150, quota_gb := 1000, quota_min := 5000,
    quota_sms := 1000, overage_gb := 5, overage_min := 1, overage_sms := 1 }

def c1Env : Env :=
  { bill := some c1Bill
    user := some ⟨1⟩
    plans := fun pid =>
      if pid = 1 then some c1CurrentPlan
      else if pid = 2 then some c1BigPlan else none
    addons := fun _ => none }

def c1Scenario : Scenario := { plan_id := some 2 }

def c8Bill : Bill :=
  { total_amount := 120
    items :=
      [{ category := "monthly_fee", subtype := "recurring", amount := 100,
         quantity := 1 }] }

def c8Plan : Plan :=
  { plan_id := 1, monthly_price := 100, quota_gb := 10, quota_min := 100,
    quota_sms := 100, overage_gb := 1, overage_min := 1, overage_sms := 1 }

def c8Env : Env :=
  { bill := some c8Bill
    user := some ⟨1⟩
    plans := fun pid => if pid = 1 then some c8Plan else none
    addons := fun _ => none }

/-- The full what-if result for `c8Env` with the empty scenario. -/
def c8Result : WhatIfResult :=
  { current_total := 120, new_total := 120, saving := 0, saving_percent := 0
    breakdown :=
      { plan := 100, addons := none, data_overage := none,
        voice_overage := none, vas := some 0, premium_sms := some 0,
        roaming := some 0, one_off := none, discount := none, taxes := 20 }
    risk_factors := [] }

def c4Report : AnomalyReport :=
  { anomalies := [], total_anomalies := 0, risk_score := 0 }

def c4Periods : Nat → String := fun i => if i = 0 then "2025-09" else "2025-08"

def c4Detect : String → Option AnomalyReport :=
  fun p => if p = "2025-09" then some c4Report else none

def c6CurrentBill : Bill :=
  { total_amount := 80
    items :=
      [{ category := "premium_sms", subtype := "premium_3rdparty",
         amount := 60, quantity := 15 }] }

def c6HistBill : Bill :=
  { total_amount := 50
    items :=
      [{ category := "data", subtype := "usage", amount := 50,
         quantity := 1 }] }

def statBillA : Bill := { total_amount := 0, items := [] }

def statBillB : Bill :=
  { total_amount := 2
    items :=
      [{ category := "data", subtype := "usage", amount := 2,
         quantity := 1 }] }

def spikeBill : Bill :=
  { total_amount := 100
    items :=
      [{ category := "data", subtype := "usage", amount := 100,
         quantity := 1 }] }

def riseBill : Bill :=
  { total_amount := 3
    items :=
      [{ category := "data", subtype := "usage", amount := 3,
         quantity := 1 }] }

noncomputable def c9Anomaly : Anomaly :=
  statisticalAnomaly "data" 100 ⟨1, 1, 1, 99, 9900⟩

def c10Anomaly : Anomaly := percentageAnomaly "data" 3 ⟨1, 1, 1, 2, 200⟩

def c2Env : AnomalyEnv :=
  { currentBill := some spikeBill
    historicalBills := [statBillA, statBillB]
    currentRoaming := ⟨0, 0, 0⟩
    previousRoaming := ⟨0, 0, 0⟩
    dailyUsage := [] }

def c5Bill : Bill :=
  { total_amount := 120
    items :=
      [{ category := "monthly_fee", subtype := "recurring", amount := 100,
         quantity := 1 }] }

def c5Plan : Plan :=
  { plan_id := 1, monthly_price := 100, quota_gb := 10, quota_min := 100,
    quota_sms := 100, overage_gb := 1, overage_min := 1, overage_sms := 1 }

def c5Env : Env :=
  { bill := some c5Bill
    user := some ⟨1⟩
    plans := fun pid => if pid = 1 then some c5Plan else none
    addons := fun _ => none }

/-- Two scenarios: the first requests a nonexistent plan (its
`calculateWhatIf` throws), the second disables VAS (succeeds). -/
def c5Scenarios : List Scenario :=
  [{ plan_id := some 99 }, { disable_vas := true }]

/-! ## Shared lemmas -/

theorem calculateCategoryTotal_nonneg (bill : Bill) (category : String)
    (h : ∀ item ∈ bill.items, 0 ≤ item.amount) :
    0 ≤ calculateCategoryTotal bill category := by
  unfold calculateCategoryTotal
  apply List.sum_nonneg
  intro x hx
  obtain ⟨item, hitem, rfl⟩ := List.mem_map.mp hx
  exact h item (List.mem_filter.mp hitem).1

theorem claimRiskPoints_nonneg (a : Anomaly) : 0 ≤ claimRiskPoints a := by
  unfold claimRiskPoints
  cases a.severity <;> split_ifs <;> norm_num

theorem riskScore_foldl (anomalies : List Anomaly) (init : ℚ) :
    anomalies.foldl
      (fun s a =>
        let s := s +
          (match a.severity with
           | Severity.high => (3 : ℚ)
           | Severity.medium => 2
           | Severity.low => 1)
        let s := if a.first_occurrence then s + 1 else s
        if a.category == "premium_sms" || a.category == "roaming" then s + 1
        else s)
      init = init + (anomalies.map claimRiskPoints).sum := by
  induction anomalies generalizing init with
  | nil => simp
  | cons a l ih =>
      rw [List.foldl_cons, ih, List.map_cons, List.sum_cons]
      simp only [claimRiskPoints, Bool.or_eq_true, beq_iff_eq]
      cases a.severity <;> split_ifs <;> ring

/-! ## C3 — risk score -/

/-- **C3.** `calculateRiskScore` returns 0 for an empty anomaly list
regardless of the bill total; otherwise it returns the sum of the
claimed per-anomaly points (3/2/1 by severity, +1 per first occurrence,
+1 per `premium_sms`/`roaming` anomaly) plus +1 when the bill total
exceeds 500 and +2 more when it exceeds 1000, capped at 10; and the
returned score always lies in `[0, 10]`. -/
theorem c3_calculateRiskScore (anomalies : List Anomaly) (totalAmount : ℚ) :
    calculateRiskScore [] totalAmount = 0 ∧
    (anomalies ≠ [] →
      calculateRiskScore anomalies totalAmount =
        min 10 ((anomalies.map claimRiskPoints).sum +
          ((if 500 < totalAmount then 1 else 0) +
            (if 1000 < totalAmount then 2 else 0)))) ∧
    0 ≤ calculateRiskScore anomalies totalAmount ∧
    calculateRiskScore anomalies totalAmount ≤ 10 := by
  have hsum : 0 ≤ (anomalies.map claimRiskPoints).sum := by
    apply List.sum_nonneg
    intro x hx
    obtain ⟨a, _, rfl⟩ := List.mem_map.mp hx
    exact claimRiskPoints_nonneg a
  have hform : anomalies ≠ [] →
      calculateRiskScore anomalies totalAmount =
        min 10 ((anomalies.map claimRiskPoints).sum +
          ((if 500 < totalAmount then 1 else 0) +
            (if 1000 < totalAmount then 2 else 0))) := by
    intro hne
    unfold calculateRiskScore
    rw [if_neg (by simpa using hne), riskScore_foldl, zero_add]
    split_ifs <;> ring_nf
  refine ⟨by simp [calculateRiskScore], hform, ?_, ?_⟩
  · by_cases hne : anomalies = []
    · simp [hne, calculateRiskScore]
    · rw [hform hne]
      apply le_min (by norm_num)
      have : (0 : ℚ) ≤ (if 500 < totalAmount then (1 : ℚ) else 0) +
          (if 1000 < totalAmount then (2 : ℚ) else 0) := by
        split_ifs <;> norm_num
      linarith
  · by_cases hne : anomalies = []
    · simp [hne, calculateRiskScore]
    · rw [hform hne]
      exact min_le_left _ _

/-- Witness for C3 at a concrete anomaly list and bill total. -/
theorem c3_calculateRiskScore_witness :
    calculateRiskScore [] 600 = 0 ∧
    ([({ type := AnomalyType.new_item, category := "roaming",
         current_amount := some 60, historical_average := some 0,
         delta := "YENİ", severity := Severity.high,
         first_occurrence := true } : Anomaly)] ≠ [] →
      calculateRiskScore
          [{ type := AnomalyType.new_item, category := "roaming",
             current_amount := some 60, historical_average := some 0,
             delta := "YENİ", severity := Severity.high,
             first_occurrence := true }] 600 =
        min 10
          (([({ type := AnomalyType.new_item, category := "roaming",
                current_amount := some 60, historical_average := some 0,
                delta := "YENİ", severity := Severity.high,
                first_occurrence := true } : Anomaly)].map
              claimRiskPoints).sum +
            ((if (500 : ℚ) < 600 then 1 else 0) +
              (if (1000 : ℚ) < 600 then 2 else 0)))) ∧
    0 ≤ calculateRiskScore
        [{ type := AnomalyType.new_item, category := "roaming",
           current_amount := some 60, historical_average := some 0,
           delta := "YENİ", severity := Severity.high,
           first_occurrence := true }] 600 ∧
    calculateRiskScore
        [{ type := AnomalyType.new_item, category := "roaming",
           current_amount := some 60, historical_average := some 0,
           delta := "YENİ", severity := Severity.high,
           first_occurrence := true }] 600 ≤ 10 :=
  c3_calculateRiskScore
    [{ type := AnomalyType.new_item, category := "roaming",
       current_amount := some 60, historical_average := some 0,
       delta := "YENİ", severity := Severity.high,
       first_occurrence := true }] 600

/-! ## C7 — guarded statistical helpers (corrected) -/

/-- **C7 (amended).** The z-score is 0 whenever the standard deviation is
0 and equals `(current - mean) / stdDev` otherwise; the percentage
change is 0 whenever the mean is *not strictly positive* (the source
guard is `mean > 0`, not `mean == 0`) and equals
`(current - mean) / mean * 100` for positive means. -/
theorem c7_statistical_guards (currentValue : ℚ) (historicalValues : List ℚ)
    (a : StatAnalysis)
    (ha : a = performStatisticalAnalysis currentValue historicalValues) :
    (a.stdDev = 0 → a.zScore = 0) ∧
    (a.stdDev ≠ 0 →
      a.zScore = ((currentValue : ℝ) - (a.mean : ℝ)) / a.stdDev) ∧
    (a.mean ≤ 0 → a.percentageChange = 0) ∧
    (0 < a.mean →
      a.percentageChange = (currentValue - a.mean) / a.mean * 100) := by
  subst ha
  unfold performStatisticalAnalysis
  refine ⟨?_, ?_, ?_, ?_⟩
  · intro h
    simp only at h ⊢
    rw [if_neg]
    rw [h]
    exact lt_irrefl 0
  · intro h
    simp only at h ⊢
    rw [if_pos]
    exact lt_of_le_of_ne (Real.sqrt_nonneg _) (Ne.symm h)
  · intro h
    simp only at h ⊢
    rw [if_neg (not_lt.mpr h)]
  · intro h
    simp only at h ⊢
    rw [if_pos h]

/-- Witness for C7 (amended) at current value 7 and history `[1, 1]`. -/
theorem c7_statistical_guards_witness :
    ((performStatisticalAnalysis 7 [1, 1]).stdDev = 0 →
      (performStatisticalAnalysis 7 [1, 1]).zScore = 0) ∧
    ((performStatisticalAnalysis 7 [1, 1]).stdDev ≠ 0 →
      (performStatisticalAnalysis 7 [1, 1]).zScore =
        ((7 : ℝ) - ((performStatisticalAnalysis 7 [1, 1]).mean : ℝ)) /
          (performStatisticalAnalysis 7 [1, 1]).stdDev) ∧
    ((performStatisticalAnalysis 7 [1, 1]).mean ≤ 0 →
      (performStatisticalAnalysis 7 [1, 1]).percentageChange = 0) ∧
    (0 < (performStatisticalAnalysis 7 [1, 1]).mean →
      (performStatisticalAnalysis 7 [1, 1]).percentageChange =
        (7 - (performStatisticalAnalysis 7 [1, 1]).mean) /
          (performStatisticalAnalysis 7 [1, 1]).mean * 100) :=
  c7_statistical_guards 7 [1, 1] _ rfl

/-- **C7 counterexample.** At current value 0 and history `[-10]` the
mean is `-10 ≠ 0`, yet `percentageChange` is 0 and not
`((0 - mean) / mean) * 100 = -100` as the claim's "for all other
inputs" clause demands: the source guard `mean > 0` also zeroes out
every negative mean. -/
theorem c7_counterexample :
    (performStatisticalAnalysis 0 [-10]).mean = -10 ∧
    (performStatisticalAnalysis 0 [-10]).mean ≠ 0 ∧
    (performStatisticalAnalysis 0 [-10]).percentageChange = 0 ∧
    (performStatisticalAnalysis 0 [-10]).percentageChange ≠
      ((0 : ℚ) - (performStatisticalAnalysis 0 [-10]).mean) /
        (performStatisticalAnalysis 0 [-10]).mean * 100 := by
  have hmean : (performStatisticalAnalysis 0 [-10]).mean = -10 := by
    unfold performStatisticalAnalysis
    norm_num
  have hpct : (performStatisticalAnalysis 0 [-10]).percentageChange = 0 := by
    unfold performStatisticalAnalysis
    norm_num
  refine ⟨hmean, by rw [hmean]; norm_num, hpct, ?_⟩
  rw [hmean, hpct]
  norm_num

/-! ## C1 — overage recomputation (corrected) -/

/-- **C1 (amended).** The what-if engine does treat the current bill's
realized overage quantities as extra consumption added on top of the new
effective quota and charges them at the new plan's overage rates — but
because the same effective quota is both added and subtracted, the
recomputed overage quantity always equals the realized overage quantity,
for *every* effective quota: a plan with a larger quota never absorbs
previously-overaged usage, and the overage charge is zero only when the
realized overage quantity or the new rate is zero. -/
theorem c1_overage_quota_invariant (usage : UsageTotals) (plan : Plan)
    (effectiveGB effectiveMin effectiveSMS : ℚ)
    (hgb : 0 ≤ usage.total_gb) (hmin : 0 ≤ usage.total_minutes)
    (hsms : 0 ≤ usage.total_sms) :
    (calculateUsageCharges usage plan effectiveGB effectiveMin
        effectiveSMS).data_overage_gb = usage.total_gb ∧
    (calculateUsageCharges usage plan effectiveGB effectiveMin
        effectiveSMS).voice_overage_min = usage.total_minutes ∧
    (calculateUsageCharges usage plan effectiveGB effectiveMin
        effectiveSMS).sms_overage_sms = usage.total_sms ∧
    (calculateUsageCharges usage plan effectiveGB effectiveMin
        effectiveSMS).data_overage = usage.total_gb * plan.overage_gb ∧
    (calculateUsageCharges usage plan effectiveGB effectiveMin
        effectiveSMS).voice_overage = usage.total_minutes * plan.overage_min ∧
    (calculateUsageCharges usage plan effectiveGB effectiveMin
        effectiveSMS).sms_overage = usage.total_sms * plan.overage_sms ∧
    (calculateUsageCharges usage plan effectiveGB effectiveMin
        effectiveSMS).total =
      usage.total_gb * plan.overage_gb +
        usage.total_minutes * plan.overage_min +
        usage.total_sms * plan.overage_sms := by
  have hq : ∀ q x : ℚ, 0 ≤ x → max 0 (q + x - q) = x := by
    intro q x hx
    rw [add_sub_cancel_left]
    exact max_eq_right hx
  unfold calculateUsageCharges
  simp [max_eq_right hgb, max_eq_right hmin, max_eq_right hsms]

/-- Witness for C1 (amended): realized overage of 2 GB / 30 min / 4 SMS
against a huge 1000 GB effective quota still comes out unchanged. -/
theorem c1_overage_quota_invariant_witness :
    0 ≤ ((⟨2, 30, 4⟩ : UsageTotals)).total_gb ∧
    ((calculateUsageCharges ⟨2, 30, 4⟩
        ⟨2, 150, 1000, 5000, 1000, 5, 1, 1⟩ 1000 5000
        1000).data_overage_gb = (2 : ℚ) ∧
      (calculateUsageCharges ⟨2, 30, 4⟩
          ⟨2, 150, 1000, 5000, 1000, 5, 1, 1⟩ 1000 5000
          1000).voice_overage_min = (30 : ℚ) ∧
      (calculateUsageCharges ⟨2, 30, 4⟩
          ⟨2, 150, 1000, 5000, 1000, 5, 1, 1⟩ 1000 5000
          1000).sms_overage_sms = (4 : ℚ) ∧
      (calculateUsageCharges ⟨2, 30, 4⟩
          ⟨2, 150, 1000, 5000, 1000, 5, 1, 1⟩ 1000 5000
          1000).data_overage = (2 : ℚ) * 5 ∧
      (calculateUsageCharges ⟨2, 30, 4⟩
          ⟨2, 150, 1000, 5000, 1000, 5, 1, 1⟩ 1000 5000
          1000).voice_overage = (30 : ℚ) * 1 ∧
      (calculateUsageCharges ⟨2, 30, 4⟩
          ⟨2, 150, 1000, 5000, 1000, 5, 1, 1⟩ 1000 5000
          1000).sms_overage = (4 : ℚ) * 1 ∧
      (calculateUsageCharges ⟨2, 30, 4⟩
          ⟨2, 150, 1000, 5000, 1000, 5, 1, 1⟩ 1000 5000
          1000).total = (2 : ℚ) * 5 + (30 : ℚ) * 1 + (4 : ℚ) * 1) :=
  ⟨by norm_num,
    c1_overage_quota_invariant ⟨2, 30, 4⟩
      ⟨2, 150, 1000, 5000, 1000, 5, 1, 1⟩ 1000 5000 1000
      (by norm_num) (by norm_num) (by norm_num)⟩

/-- **C1 counterexample.** The realized overage is 2 GB and the new
plan's quota (1000 GB) vastly exceeds the entire current consumption
(10 GB old quota + 2 GB overage), yet the what-if result still carries a
data-overage charge of `2 × 5 = 10 TL` — the larger quota absorbs
nothing, refuting the claim's "can fully absorb previously-overaged
usage, yielding zero overage charge". -/
theorem c1_counterexample :
    (analyzeBill c1Bill).usage.total_gb = 2 ∧
    c1CurrentPlan.quota_gb + (analyzeBill c1Bill).usage.total_gb <
      c1BigPlan.quota_gb ∧
    (calculateWhatIf c1Env c1Scenario).toOption.map
        (fun r => r.breakdown.data_overage) = some (some 10) ∧
    ((10 : ℚ) ≠ 0) := by
  have hgb : (analyzeBill c1Bill).usage.total_gb = 2 := by
    simp [analyzeBill, c1Bill]
  refine ⟨hgb, ?_, ?_, by norm_num⟩
  · rw [hgb]
    norm_num [c1CurrentPlan, c1BigPlan]
  · simp [calculateWhatIf, calculateScenario, calculateUsageCharges,
      analyzeBill, calculateCategoryTotal, c1Env, c1Scenario, c1Bill,
      c1CurrentPlan, c1BigPlan, Except.toOption]
    norm_num [round2, taxRate]

/-! ## C8 — saving and saving-percent formulas -/

/-- **C8.** Every successful `calculateWhatIf` result reports the current
bill total, `saving = total_amount - new_total` rounded to 2 decimal
places, and `saving_percent = (total_amount - new_total) / total_amount
* 100` rounded to 1 decimal place (the percentage is computed from the
exact difference, before the saving itself is rounded). -/
theorem c8_saving_formulas (env : Env) (bill : Bill) (scenario : Scenario)
    (R : WhatIfResult) (hbill : env.bill = some bill)
    (hok : calculateWhatIf env scenario = Except.ok R) :
    R.current_total = bill.total_amount ∧
    R.saving = round2 (bill.total_amount - R.new_total) ∧
    R.saving_percent =
      round1 ((bill.total_amount - R.new_total) / bill.total_amount * 100) := by
  cases hu : env.user with
  | none => simp [calculateWhatIf, hbill, hu] at hok
  | some user =>
      cases hp : env.plans user.current_plan_id with
      | none => simp [calculateWhatIf, hbill, hu, hp] at hok
      | some currentPlan =>
          cases hs : calculateScenario env bill currentPlan scenario
              (analyzeBill bill) with
          | error e => simp [calculateWhatIf, hbill, hu, hp, hs] at hok
          | ok sr =>
              simp only [calculateWhatIf, hbill, hu, hp, hs,
                Except.ok.injEq] at hok
              subst hok
              exact ⟨rfl, rfl, rfl⟩

theorem c8_eval : calculateWhatIf c8Env {} = Except.ok c8Result := by
  simp [calculateWhatIf, calculateScenario, calculateUsageCharges, analyzeBill,
    calculateCategoryTotal, c8Env, c8Bill, c8Plan, c8Result]
  norm_num [round2, round1, taxRate]

/-- Witness for C8 at a concrete environment and the empty scenario. -/
theorem c8_saving_formulas_witness :
    c8Env.bill = some c8Bill ∧
    calculateWhatIf c8Env {} = Except.ok c8Result ∧
    (c8Result.current_total = c8Bill.total_amount ∧
      c8Result.saving = round2 (c8Bill.total_amount - c8Result.new_total) ∧
      c8Result.saving_percent =
        round1 ((c8Bill.total_amount - c8Result.new_total) /
          c8Bill.total_amount * 100)) :=
  ⟨rfl, c8_eval, c8_saving_formulas c8Env c8Bill {} c8Result rfl c8_eval⟩

/-! ## C4 — anomaly history degradation (corrected) -/

/-- **C4 counterexample.** With a single trailing period whose bill
cannot be found (`detect` returns `none`), `getAnomalyHistory` returns
the *empty* history: the internally pushed zero-anomaly record is
removed again by the final `history.filter(h => h.anomaly_count > 0 ||
h.summary !== "Veri bulunamadı")`, so no zero-anomaly record appears in
the returned history as the claim demands. -/
theorem c4_counterexample :
    getAnomalyHistory 1 (fun _ => "2025-09") (fun _ => none) = [] := by
  simp [getAnomalyHistory, noDataRecord]

/-- **C4 (amended).** `getAnomalyHistory` never fails when individual
periods lack a findable bill: each failing period is degraded in-loop to
a zero-anomaly record, but the final filter removes exactly those
records, so the returned history consists of the records of the
successful periods only (in order) and silently omits every failing
period.  (The hypothesis states the report invariant `total_anomalies =
anomalies.length`, which `detectAnomalies` guarantees.) -/
theorem c4_history_drops_failed_periods (months : Nat) (periods : Nat → String)
    (detect : String → Option AnomalyReport)
    (hwf : ∀ p r, detect p = some r → r.total_anomalies = r.anomalies.length) :
    getAnomalyHistory months periods detect =
      (List.range months).filterMap
        (fun i => (detect (periods i)).map (successRecord (periods i))) := by
  simp only [getAnomalyHistory]
  generalize List.range months = is
  induction is with
  | nil => simp
  | cons i is ih =>
      cases hd : detect (periods i) with
      | none =>
          rw [List.map_cons, List.filterMap_cons, hd, Option.map_none',
            List.filter_cons_of_neg (by simp [noDataRecord])]
          exact ih
      | some r =>
          have hlen := hwf _ _ hd
          have hpred : (decide (0 < (successRecord (periods i) r).anomaly_count) ||
              !((successRecord (periods i) r).summary == "Veri bulunamadı")) = true := by
            rcases Nat.eq_zero_or_pos r.total_anomalies with h0 | hpos
            · have hanom : r.anomalies = [] := by
                have : r.anomalies.length = 0 := by omega
                exact List.length_eq_zero.mp this
              simp [successRecord, generatePeriodSummary, hanom]
            · simp [successRecord, hpos]
          simp only [List.map_cons, List.filterMap_cons, hd, Option.map_some',
            List.filter_cons, hpred, eq_self_iff_true, if_true]
          rw [ih]

/-- Witness for C4 (amended): two trailing periods, the older one
failing; the returned history is exactly the successful records. -/
theorem c4_history_drops_failed_periods_witness :
    getAnomalyHistory 2 c4Periods c4Detect =
      (List.range 2).filterMap
        (fun i => (c4Detect (c4Periods i)).map (successRecord (c4Periods i))) :=
  c4_history_drops_failed_periods 2 c4Periods c4Detect (by
    intro p r h
    unfold c4Detect at h
    by_cases hp : p = "2025-09"
    · rw [if_pos hp] at h
      injection h with h
      subst h
      rfl
    · rw [if_neg hp] at h
      cases h)

/-! ## C6 — new-item anomalies -/

theorem newItemDecision_category (currentBill : Bill)
    (historicalBills : List Bill) (category : String) (a : Anomaly)
    (h : newItemDecision currentBill historicalBills category = some a) :
    a.category = category := by
  simp only [newItemDecision] at h
  split at h
  · injection h with h
    subst h
    rfl
  · cases h

/-- Restricting a category-indexed `filterMap` to one category commutes
with filtering the category list, provided every decision tags its
anomaly with its own category. -/
theorem filter_category_filterMap (L : List String)
    (dec : String → Option Anomaly)
    (hdec : ∀ c a, dec c = some a → a.category = c) (cat : String) :
    (L.filterMap dec).filter (fun a => a.category == cat) =
      (L.filter (fun c => c == cat)).filterMap dec := by
  induction L with
  | nil => simp
  | cons c cs ih =>
      cases hd : dec c with
      | none =>
          by_cases hc : c = cat
          · subst hc
            simp [List.filterMap_cons, List.filter_cons, hd, ih]
          · simp [List.filterMap_cons, List.filter_cons, hd, hc, ih]
      | some a =>
          have hca := hdec c a hd
          by_cases hc : c = cat
          · subst hc
            simp [List.filterMap_cons, List.filter_cons, hd, hca, ih]
          · simp [List.filterMap_cons, List.filter_cons, hd, hca, hc, ih]

/-- **C6.** For each of the six new-item categories (with the schema
invariant that item amounts are nonnegative): exactly one `new_item`
anomaly — with the source's fields, `historical_average = 0`, the
new-item delta marker (source literal `"YENİ"`, "NEW"), severity `high`
iff the current amount exceeds 50 and `medium` otherwise, and
`first_occurrence = true` — is emitted for the category iff the current
bill's total for it is nonzero and no historical bill's total for it is
nonzero; otherwise none is emitted for that category. -/
theorem c6_new_item_rule (currentBill : Bill) (historicalBills : List Bill)
    (category : String) (hcat : category ∈ newItemCategories)
    (hcur : ∀ item ∈ currentBill.items, 0 ≤ item.amount)
    (hhist : ∀ b ∈ historicalBills, ∀ item ∈ b.items, 0 ≤ item.amount) :
    ((calculateCategoryTotal currentBill category ≠ 0 ∧
        ∀ b ∈ historicalBills, calculateCategoryTotal b category = 0) →
      (detectNewItemAnomalies currentBill historicalBills).filter
          (fun a => a.category == category) =
        [{ type := AnomalyType.new_item, category := category,
           current_amount := some (calculateCategoryTotal currentBill category),
           historical_average := some 0, delta := "YENİ",
           severity :=
             if 50 < calculateCategoryTotal currentBill category then
               Severity.high
             else Severity.medium,
           first_occurrence := true }]) ∧
    (¬(calculateCategoryTotal currentBill category ≠ 0 ∧
        ∀ b ∈ historicalBills, calculateCategoryTotal b category = 0) →
      (detectNewItemAnomalies currentBill historicalBills).filter
          (fun a => a.category == category) = []) := by
  have hfilter : (detectNewItemAnomalies currentBill historicalBills).filter
      (fun a => a.category == category) =
      ([category]).filterMap (newItemDecision currentBill historicalBills) := by
    unfold detectNewItemAnomalies
    rw [filter_category_filterMap _ _
      (fun c a h => newItemDecision_category _ _ c a h) category]
    congr 1
    simp only [newItemCategories, List.mem_cons, List.mem_singleton,
      List.not_mem_nil, or_false] at hcat
    rcases hcat with rfl | rfl | rfl | rfl | rfl | rfl <;> decide
  constructor
  · rintro ⟨hne, hzero⟩
    have hcurpos : 0 < calculateCategoryTotal currentBill category :=
      lt_of_le_of_ne (calculateCategoryTotal_nonneg _ _ hcur) (Ne.symm hne)
    have hcond : (!(historicalBills.map
          (fun b => calculateCategoryTotal b category)).any
          (fun amount => decide (0 < amount)) &&
        decide (0 < calculateCategoryTotal currentBill category)) = true := by
      simp only [Bool.and_eq_true, Bool.not_eq_true', decide_eq_true_eq,
        List.any_eq_false, decide_eq_false_iff_not]
      refine ⟨fun amount hmem => ?_, hcurpos⟩
      obtain ⟨b, hb, rfl⟩ := List.mem_map.mp hmem
      rw [hzero b hb]
      exact lt_irrefl 0
    have hdec : newItemDecision currentBill historicalBills category =
        some { type := AnomalyType.new_item, category := category,
               current_amount :=
                 some (calculateCategoryTotal currentBill category),
               historical_average := some 0, delta := "YENİ",
               severity :=
                 if 50 < calculateCategoryTotal currentBill category then
                   Severity.high
                 else Severity.medium,
               first_occurrence := true } := by
      simp only [newItemDecision]
      rw [if_pos hcond]
    rw [hfilter, List.filterMap_cons, List.filterMap_nil, hdec]
  · intro hnot
    have hcond : ¬((!(historicalBills.map
          (fun b => calculateCategoryTotal b category)).any
          (fun amount => decide (0 < amount)) &&
        decide (0 < calculateCategoryTotal currentBill category)) = true) := by
      simp only [Bool.and_eq_true, Bool.not_eq_true', decide_eq_true_eq,
        List.any_eq_false, decide_eq_false_iff_not, not_and]
      intro hall
      by_cases hcur0 : calculateCategoryTotal currentBill category = 0
      · rw [hcur0]
        exact lt_irrefl 0
      · exfalso
        apply hnot
        refine ⟨hcur0, fun b hb => ?_⟩
        by_contra hbne
        have hbpos : 0 < calculateCategoryTotal b category :=
          lt_of_le_of_ne (calculateCategoryTotal_nonneg _ _ (hhist b hb))
            (Ne.symm hbne)
        exact hall _ (List.mem_map.mpr ⟨b, hb, rfl⟩) hbpos
    have hdec : newItemDecision currentBill historicalBills category = none := by
      simp only [newItemDecision]
      rw [if_neg hcond]
    rw [hfilter, List.filterMap_cons, List.filterMap_nil, hdec]

/-- Witness for C6: a first-time premium-SMS charge of 60 TL yields
exactly one high-severity new-item anomaly for `premium_sms`. -/
theorem c6_new_item_rule_witness :
    ((calculateCategoryTotal c6CurrentBill "premium_sms" ≠ 0 ∧
        ∀ b ∈ [c6HistBill], calculateCategoryTotal b "premium_sms" = 0) →
      (detectNewItemAnomalies c6CurrentBill [c6HistBill]).filter
          (fun a => a.category == "premium_sms") =
        [{ type := AnomalyType.new_item, category := "premium_sms",
           current_amount :=
             some (calculateCategoryTotal c6CurrentBill "premium_sms"),
           historical_average := some 0, delta := "YENİ",
           severity :=
             if 50 < calculateCategoryTotal c6CurrentBill "premium_sms" then
               Severity.high
             else Severity.medium,
           first_occurrence := true }]) ∧
    (¬(calculateCategoryTotal c6CurrentBill "premium_sms" ≠ 0 ∧
        ∀ b ∈ [c6HistBill], calculateCategoryTotal b "premium_sms" = 0) →
      (detectNewItemAnomalies c6CurrentBill [c6HistBill]).filter
          (fun a => a.category == "premium_sms") = []) :=
  c6_new_item_rule c6CurrentBill [c6HistBill] "premium_sms"
    (by decide)
    (by
      intro item hitem
      simp only [c6CurrentBill, List.mem_singleton] at hitem
      subst hitem
      norm_num)
    (by
      intro b hb
      simp only [List.mem_singleton] at hb
      subst hb
      intro item hitem
      simp only [c6HistBill, List.mem_singleton] at hitem
      subst hitem
      norm_num)

/-! ## Category-rule lemmas (shared by C2, C9, C10) -/

theorem categoryDecision_of_zscore (currentBill : Bill)
    (historicalBills : List Bill) (threshold : ℚ) (category : String)
    (hne : historicalBills ≠ [])
    (hz : zScoreThreshold <
      |(categoryAnalysis currentBill historicalBills category).zScore|) :
    categoryDecision currentBill historicalBills threshold category =
      some (statisticalAnomaly category
        (calculateCategoryTotal currentBill category)
        (categoryAnalysis currentBill historicalBills category)) := by
  simp only [categoryDecision, categoryAnalysis] at hz ⊢
  rw [if_neg (by simpa using hne), if_pos hz]

theorem categoryDecision_of_pct (currentBill : Bill)
    (historicalBills : List Bill) (threshold : ℚ) (category : String)
    (hne : historicalBills ≠ [])
    (hz : ¬zScoreThreshold <
      |(categoryAnalysis currentBill historicalBills category).zScore|)
    (hp : threshold * 100 <
      (categoryAnalysis currentBill historicalBills category).percentageChange) :
    categoryDecision currentBill historicalBills threshold category =
      some (percentageAnomaly category
        (calculateCategoryTotal currentBill category)
        (categoryAnalysis currentBill historicalBills category)) := by
  simp only [categoryDecision, categoryAnalysis] at hz hp ⊢
  rw [if_neg (by simpa using hne), if_neg hz, if_pos hp]

theorem categoryDecision_cases {currentBill : Bill}
    {historicalBills : List Bill} {threshold : ℚ} {category : String}
    {a : Anomaly}
    (h : categoryDecision currentBill historicalBills threshold category =
      some a) :
    (zScoreThreshold <
        |(categoryAnalysis currentBill historicalBills category).zScore| ∧
      a = statisticalAnomaly category
        (calculateCategoryTotal currentBill category)
        (categoryAnalysis currentBill historicalBills category)) ∨
    (¬zScoreThreshold <
        |(categoryAnalysis currentBill historicalBills category).zScore| ∧
      threshold * 100 <
        (categoryAnalysis currentBill historicalBills category).percentageChange ∧
      a = percentageAnomaly category
        (calculateCategoryTotal currentBill category)
        (categoryAnalysis currentBill historicalBills category)) := by
  simp only [categoryDecision, categoryAnalysis] at h ⊢
  by_cases h0 : (historicalBills.map
      (fun b => calculateCategoryTotal b category)).length = 0
  · rw [if_pos h0] at h
    cases h
  · rw [if_neg h0] at h
    by_cases hz : zScoreThreshold <
        |(performStatisticalAnalysis
            (calculateCategoryTotal currentBill category)
            (historicalBills.map
              (fun b => calculateCategoryTotal b category))).zScore|
    · rw [if_pos hz] at h
      exact Or.inl ⟨hz, (Option.some.inj h).symm⟩
    · rw [if_neg hz] at h
      by_cases hp : threshold * 100 <
          (performStatisticalAnalysis
              (calculateCategoryTotal currentBill category)
              (historicalBills.map
                (fun b => calculateCategoryTotal b category))).percentageChange
      · rw [if_pos hp] at h
        exact Or.inr ⟨hz, hp, (Option.some.inj h).symm⟩
      · rw [if_neg hp] at h
        cases h

theorem categoryDecision_category {currentBill : Bill}
    {historicalBills : List Bill} {threshold : ℚ} {category : String}
    {a : Anomaly}
    (h : categoryDecision currentBill historicalBills threshold category =
      some a) :
    a.category = category := by
  rcases categoryDecision_cases h with ⟨_, rfl⟩ | ⟨_, _, rfl⟩
  · rfl
  · rfl

theorem performStatisticalAnalysis_percentageChange (cv : ℚ) (hv : List ℚ) :
    (performStatisticalAnalysis cv hv).percentageChange =
      if 0 < (performStatisticalAnalysis cv hv).mean then
        (cv - (performStatisticalAnalysis cv hv).mean) /
          (performStatisticalAnalysis cv hv).mean * 100
      else 0 := rfl

theorem getSeverity_of_two_lt {x : ℝ} (hx : 2 < x) :
    getSeverity x = Severity.high ∨ getSeverity x = Severity.medium := by
  unfold getSeverity
  split_ifs with h3 h2
  · exact Or.inl rfl
  · exact Or.inr rfl
  · exact absurd (le_of_lt hx) h2

/-! ## C9 — statistical anomalies are never low severity -/

/-- **C9.** Every `"statistical"` anomaly emitted by
`detectCategoryAnomalies` has severity `medium` or `high`, never `low`:
the z-score rule fires only for `|zScore| > 2` and `getSeverity` maps
every such magnitude to at least `medium` (and to `high` from 3 up). -/
theorem c9_statistical_severity (currentBill : Bill)
    (historicalBills : List Bill) (threshold : ℚ) (a : Anomaly)
    (ha : a ∈ detectCategoryAnomalies currentBill historicalBills threshold)
    (htype : a.type = AnomalyType.statistical) :
    (a.severity = Severity.medium ∨ a.severity = Severity.high) ∧
    a.severity ≠ Severity.low := by
  obtain ⟨c, hc, hdec⟩ := List.mem_filterMap.mp ha
  rcases categoryDecision_cases hdec with ⟨hz, rfl⟩ | ⟨hz, hp, rfl⟩
  · have h2 : (2 : ℝ) <
        |(categoryAnalysis currentBill historicalBills c).zScore| := hz
    rcases getSeverity_of_two_lt h2 with hh | hm
    · refine ⟨Or.inr ?_, ?_⟩
      · exact hh
      · rw [show (statisticalAnomaly c
            (calculateCategoryTotal currentBill c)
            (categoryAnalysis currentBill historicalBills c)).severity =
            getSeverity |(categoryAnalysis currentBill historicalBills c).zScore|
            from rfl, hh]
        simp
    · refine ⟨Or.inl ?_, ?_⟩
      · exact hm
      · rw [show (statisticalAnomaly c
            (calculateCategoryTotal currentBill c)
            (categoryAnalysis currentBill historicalBills c)).severity =
            getSeverity |(categoryAnalysis currentBill historicalBills c).zScore|
            from rfl, hm]
        simp
  · exact absurd htype (by simp [percentageAnomaly])

/-! ## C10 — percentage-increase anomalies need a positive baseline -/

/-- **C10.** With a nonnegative threshold, a `"percentage_increase"`
anomaly is emitted only when the category's historical mean is strictly
positive and the current amount strictly exceeds that mean; the emitted
record carries exactly those two numbers. -/
theorem c10_percentage_premises (currentBill : Bill)
    (historicalBills : List Bill) (threshold : ℚ) (hθ : 0 ≤ threshold)
    (a : Anomaly)
    (ha : a ∈ detectCategoryAnomalies currentBill historicalBills threshold)
    (htype : a.type = AnomalyType.percentage_increase) :
    ∃ c ∈ categoryAnomalyCategories, a.category = c ∧
      a.historical_average =
        some (categoryAnalysis currentBill historicalBills c).mean ∧
      a.current_amount = some (calculateCategoryTotal currentBill c) ∧
      0 < (categoryAnalysis currentBill historicalBills c).mean ∧
      (categoryAnalysis currentBill historicalBills c).mean <
        calculateCategoryTotal currentBill c := by
  obtain ⟨c, hc, hdec⟩ := List.mem_filterMap.mp ha
  rcases categoryDecision_cases hdec with ⟨hz, rfl⟩ | ⟨hz, hp, rfl⟩
  · exact absurd htype (by simp [statisticalAnomaly])
  · refine ⟨c, hc, rfl, rfl, rfl, ?_⟩
    have hpos : 0 <
        (categoryAnalysis currentBill historicalBills c).percentageChange :=
      lt_of_le_of_lt (mul_nonneg hθ (by norm_num)) hp
    rw [categoryAnalysis, performStatisticalAnalysis_percentageChange] at hpos
    by_cases hm : 0 < (performStatisticalAnalysis
        (calculateCategoryTotal currentBill c)
        (historicalBills.map (fun b => calculateCategoryTotal b c))).mean
    · rw [if_pos hm] at hpos
      have hmean := hm
      refine ⟨by rw [categoryAnalysis]; exact hm, ?_⟩
      have h1 : 0 < (calculateCategoryTotal currentBill c -
          (performStatisticalAnalysis
            (calculateCategoryTotal currentBill c)
            (historicalBills.map
              (fun b => calculateCategoryTotal b c))).mean) /
          (performStatisticalAnalysis
            (calculateCategoryTotal currentBill c)
            (historicalBills.map
              (fun b => calculateCategoryTotal b c))).mean := by
        linarith
      have h2 := mul_pos h1 hm
      rw [div_mul_cancel₀ _ (ne_of_gt hm)] at h2
      rw [categoryAnalysis]
      linarith
    · rw [if_neg hm] at hpos
      exact absurd hpos (lt_irrefl 0)

/-! ### Concrete witness data for the category rules -/

theorem performStatisticalAnalysis_eval (cv : ℚ) (hv : List ℚ) (m v : ℚ)
    (sd z : ℝ) (pc : ℚ)
    (hm : hv.sum / (hv.length : ℚ) = m)
    (hvv : (hv.map (fun x => (x - m) ^ 2)).sum / (hv.length : ℚ) = v)
    (hsd : Real.sqrt ((v : ℚ) : ℝ) = sd)
    (hz : (if 0 < sd then ((cv : ℝ) - ((m : ℚ) : ℝ)) / sd else 0) = z)
    (hpc : (if 0 < m then (cv - m) / m * 100 else 0) = pc) :
    performStatisticalAnalysis cv hv = ⟨m, v, sd, z, pc⟩ := by
  subst hm
  subst hvv
  subst hsd
  subst hz
  subst hpc
  rfl

theorem statHist_map_data :
    [statBillA, statBillB].map (fun b => calculateCategoryTotal b "data") =
      [0, 2] := by
  simp [calculateCategoryTotal, statBillA, statBillB]

theorem spikeBill_data : calculateCategoryTotal spikeBill "data" = 100 := by
  simp [calculateCategoryTotal, spikeBill]

theorem riseBill_data : calculateCategoryTotal riseBill "data" = 3 := by
  simp [calculateCategoryTotal, riseBill]

/-- History totals `[0, 2]` against current 100: mean 1, variance 1,
standard deviation 1, z-score 99, percentage change 9900. -/
theorem spike_analysis :
    categoryAnalysis spikeBill [statBillA, statBillB] "data" =
      ⟨1, 1, 1, 99, 9900⟩ := by
  unfold categoryAnalysis
  rw [spikeBill_data, statHist_map_data]
  exact performStatisticalAnalysis_eval 100 [0, 2] 1 1 1 99 9900
    (by norm_num)
    (by norm_num)
    (by rw [Rat.cast_one, Real.sqrt_one])
    (by rw [if_pos one_pos]; push_cast; norm_num)
    (by rw [if_pos one_pos]; norm_num)

/-- History totals `[0, 2]` against current 3: mean 1, variance 1,
standard deviation 1, z-score 2, percentage change 200. -/
theorem rise_analysis :
    categoryAnalysis riseBill [statBillA, statBillB] "data" =
      ⟨1, 1, 1, 2, 200⟩ := by
  unfold categoryAnalysis
  rw [riseBill_data, statHist_map_data]
  exact performStatisticalAnalysis_eval 3 [0, 2] 1 1 1 2 200
    (by norm_num)
    (by norm_num)
    (by rw [Rat.cast_one, Real.sqrt_one])
    (by rw [if_pos one_pos]; push_cast; norm_num)
    (by rw [if_pos one_pos]; norm_num)

theorem c9_anomaly_mem :
    c9Anomaly ∈
      detectCategoryAnomalies spikeBill [statBillA, statBillB]
        defaultThreshold := by
  have hz : zScoreThreshold <
      |(categoryAnalysis spikeBill [statBillA, statBillB] "data").zScore| := by
    rw [spike_analysis]
    show (2 : ℝ) < |(99 : ℝ)|
    rw [abs_of_pos (by norm_num)]
    norm_num
  have hdec := categoryDecision_of_zscore spikeBill [statBillA, statBillB]
    defaultThreshold "data" (by simp) hz
  rw [spike_analysis, spikeBill_data] at hdec
  exact List.mem_filterMap.mpr ⟨"data", by decide, hdec⟩

/-- Witness for C9: the statistical anomaly emitted for the spiking
`data` category is medium-or-high severity (here: high). -/
theorem c9_statistical_severity_witness :
    (c9Anomaly.severity = Severity.medium ∨
      c9Anomaly.severity = Severity.high) ∧
    c9Anomaly.severity ≠ Severity.low :=
  c9_statistical_severity spikeBill [statBillA, statBillB] defaultThreshold
    c9Anomaly c9_anomaly_mem rfl

theorem c10_anomaly_mem :
    c10Anomaly ∈
      detectCategoryAnomalies riseBill [statBillA, statBillB]
        defaultThreshold := by
  have hz : ¬zScoreThreshold <
      |(categoryAnalysis riseBill [statBillA, statBillB] "data").zScore| := by
    rw [rise_analysis]
    show ¬(2 : ℝ) < |(2 : ℝ)|
    rw [abs_of_pos (by norm_num)]
    norm_num
  have hp : defaultThreshold * 100 <
      (categoryAnalysis riseBill [statBillA, statBillB]
        "data").percentageChange := by
    rw [rise_analysis]
    show defaultThreshold * 100 < (200 : ℚ)
    norm_num [defaultThreshold]
  have hdec := categoryDecision_of_pct riseBill [statBillA, statBillB]
    defaultThreshold "data" (by simp) hz hp
  rw [rise_analysis, riseBill_data] at hdec
  exact List.mem_filterMap.mpr ⟨"data", by decide, hdec⟩

/-- Witness for C10: the percentage-increase anomaly emitted for the
rising `data` category has a positive historical mean (1) strictly below
the current amount (3). -/
theorem c10_percentage_premises_witness :
    ∃ c ∈ categoryAnomalyCategories, c10Anomaly.category = c ∧
      c10Anomaly.historical_average =
        some (categoryAnalysis riseBill [statBillA, statBillB] c).mean ∧
      c10Anomaly.current_amount = some (calculateCategoryTotal riseBill c) ∧
      0 < (categoryAnalysis riseBill [statBillA, statBillB] c).mean ∧
      (categoryAnalysis riseBill [statBillA, statBillB] c).mean <
        calculateCategoryTotal riseBill c :=
  c10_percentage_premises riseBill [statBillA, statBillB] defaultThreshold
    (by norm_num [defaultThreshold]) c10Anomaly c10_anomaly_mem rfl

/-! ## C2 — z-score priority and mutual exclusion -/

theorem detectNewItemAnomalies_type {currentBill : Bill}
    {historicalBills : List Bill} {a : Anomaly}
    (h : a ∈ detectNewItemAnomalies currentBill historicalBills) :
    a.type = AnomalyType.new_item := by
  obtain ⟨c, hc, hdec⟩ := List.mem_filterMap.mp h
  simp only [newItemDecision] at hdec
  split at hdec
  · obtain rfl := Option.some.inj hdec
    rfl
  · cases hdec

theorem detectRoamingAnomalies_type {cu pu : RoamingUsage} {a : Anomaly}
    (h : a ∈ detectRoamingAnomalies cu pu) :
    a.type = AnomalyType.roaming_new ∨
      a.type = AnomalyType.roaming_excessive := by
  unfold detectRoamingAnomalies at h
  rw [List.mem_append] at h
  rcases h with h | h
  · split at h
    · simp only [List.mem_singleton] at h
      subst h
      exact Or.inl rfl
    · simp at h
  · split at h
    · simp only [List.mem_singleton] at h
      subst h
      exact Or.inr rfl
    · simp at h

theorem detectUsagePatternAnomalies_type {du : List DailyUsage} {a : Anomaly}
    (h : a ∈ detectUsagePatternAnomalies du) :
    a.type = AnomalyType.usage_spike := by
  simp only [detectUsagePatternAnomalies] at h
  split at h
  · simp at h
  · split at h
    · simp at h
    · simp only [List.mem_singleton] at h
      subst h
      rfl

/-- **C2.** In every successful run of `detectAnomalies` over a nonempty
historical window, for each category of the fixed list: a
`"statistical"` anomaly is emitted for it iff `|zScore| > 2`, a
`"percentage_increase"` anomaly is emitted for it iff `|zScore| ≤ 2`
and the percentage change exceeds `threshold * 100`, and the two rules
are mutually exclusive — never both for the same category in the same
run. -/
theorem c2_category_rules (env : AnomalyEnv) (threshold : ℚ) (bill : Bill)
    (category : String) (hbill : env.currentBill = some bill)
    (hne : env.historicalBills ≠ [])
    (hcat : category ∈ categoryAnomalyCategories) :
    ∃ report, detectAnomalies env threshold = Except.ok report ∧
      ((∃ a ∈ report.anomalies, a.category = category ∧
          a.type = AnomalyType.statistical) ↔
        2 < |(categoryAnalysis bill env.historicalBills category).zScore|) ∧
      ((∃ a ∈ report.anomalies, a.category = category ∧
          a.type = AnomalyType.percentage_increase) ↔
        (|(categoryAnalysis bill env.historicalBills category).zScore| ≤ 2 ∧
          threshold * 100 <
            (categoryAnalysis bill env.historicalBills
              category).percentageChange)) ∧
      ¬((∃ a ∈ report.anomalies, a.category = category ∧
          a.type = AnomalyType.statistical) ∧
        (∃ a ∈ report.anomalies, a.category = category ∧
          a.type = AnomalyType.percentage_increase)) := by
  have hrep : detectAnomalies env threshold = Except.ok
      { anomalies :=
          detectCategoryAnomalies bill env.historicalBills threshold ++
            detectNewItemAnomalies bill env.historicalBills ++
            detectRoamingAnomalies env.currentRoaming env.previousRoaming ++
            detectUsagePatternAnomalies env.dailyUsage
        total_anomalies :=
          (detectCategoryAnomalies bill env.historicalBills threshold ++
            detectNewItemAnomalies bill env.historicalBills ++
            detectRoamingAnomalies env.currentRoaming env.previousRoaming ++
            detectUsagePatternAnomalies env.dailyUsage).length
        risk_score :=
          calculateRiskScore
            (detectCategoryAnomalies bill env.historicalBills threshold ++
              detectNewItemAnomalies bill env.historicalBills ++
              detectRoamingAnomalies env.currentRoaming env.previousRoaming ++
              detectUsagePatternAnomalies env.dailyUsage)
            bill.total_amount } := by
    simp only [detectAnomalies, hbill]
  have hstat : (∃ a ∈ detectCategoryAnomalies bill env.historicalBills
        threshold ++ detectNewItemAnomalies bill env.historicalBills ++
        detectRoamingAnomalies env.currentRoaming env.previousRoaming ++
        detectUsagePatternAnomalies env.dailyUsage,
        a.category = category ∧ a.type = AnomalyType.statistical) ↔
      2 < |(categoryAnalysis bill env.historicalBills category).zScore| := by
    constructor
    · rintro ⟨a, ha, hcatg, htype⟩
      rcases List.mem_append.mp ha with ha | hD
      · rcases List.mem_append.mp ha with ha | hC
        · rcases List.mem_append.mp ha with hA | hB
          · obtain ⟨c, hc, hdec⟩ := List.mem_filterMap.mp hA
            have hcc : a.category = c := categoryDecision_category hdec
            rw [hcatg] at hcc
            subst hcc
            rcases categoryDecision_cases hdec with ⟨hz, rfl⟩ | ⟨hz, hp, rfl⟩
            · exact hz
            · exact absurd htype (by simp [percentageAnomaly])
          · rw [detectNewItemAnomalies_type hB] at htype
            cases htype
        · rcases detectRoamingAnomalies_type hC with ht | ht <;>
            rw [ht] at htype <;> cases htype
      · rw [detectUsagePatternAnomalies_type hD] at htype
        cases htype
    · intro hz
      refine ⟨statisticalAnomaly category
        (calculateCategoryTotal bill category)
        (categoryAnalysis bill env.historicalBills category), ?_, rfl, rfl⟩
      apply List.mem_append_left
      apply List.mem_append_left
      apply List.mem_append_left
      exact List.mem_filterMap.mpr
        ⟨category, hcat,
          categoryDecision_of_zscore bill env.historicalBills threshold
            category hne hz⟩
  have hpct : (∃ a ∈ detectCategoryAnomalies bill env.historicalBills
        threshold ++ detectNewItemAnomalies bill env.historicalBills ++
        detectRoamingAnomalies env.currentRoaming env.previousRoaming ++
        detectUsagePatternAnomalies env.dailyUsage,
        a.category = category ∧ a.type = AnomalyType.percentage_increase) ↔
      (|(categoryAnalysis bill env.historicalBills category).zScore| ≤ 2 ∧
        threshold * 100 <
          (categoryAnalysis bill env.historicalBills
            category).percentageChange) := by
    constructor
    · rintro ⟨a, ha, hcatg, htype⟩
      rcases List.mem_append.mp ha with ha | hD
      · rcases List.mem_append.mp ha with ha | hC
        · rcases List.mem_append.mp ha with hA | hB
          · obtain ⟨c, hc, hdec⟩ := List.mem_filterMap.mp hA
            have hcc : a.category = c := categoryDecision_category hdec
            rw [hcatg] at hcc
            subst hcc
            rcases categoryDecision_cases hdec with ⟨hz, rfl⟩ | ⟨hz, hp, rfl⟩
            · exact absurd htype (by simp [statisticalAnomaly])
            · exact ⟨not_lt.mp hz, hp⟩
          · rw [detectNewItemAnomalies_type hB] at htype
            cases htype
        · rcases detectRoamingAnomalies_type hC with ht | ht <;>
            rw [ht] at htype <;> cases htype
      · rw [detectUsagePatternAnomalies_type hD] at htype
        cases htype
    · rintro ⟨hz, hp⟩
      refine ⟨percentageAnomaly category
        (calculateCategoryTotal bill category)
        (categoryAnalysis bill env.historicalBills category), ?_, rfl, rfl⟩
      apply List.mem_append_left
      apply List.mem_append_left
      apply List.mem_append_left
      exact List.mem_filterMap.mpr
        ⟨category, hcat,
          categoryDecision_of_pct bill env.historicalBills threshold category
            hne (not_lt.mpr hz) hp⟩
  exact ⟨_, hrep, hstat, hpct,
    fun hb => absurd (hstat.mp hb.1) (not_lt.mpr (hpct.mp hb.2).1)⟩

/-- Witness for C2 at a concrete environment (spiking `data` category,
two historical bills). -/
theorem c2_category_rules_witness :
    ∃ report, detectAnomalies c2Env defaultThreshold = Except.ok report ∧
      ((∃ a ∈ report.anomalies, a.category = "data" ∧
          a.type = AnomalyType.statistical) ↔
        2 < |(categoryAnalysis spikeBill c2Env.historicalBills
          "data").zScore|) ∧
      ((∃ a ∈ report.anomalies, a.category = "data" ∧
          a.type = AnomalyType.percentage_increase) ↔
        (|(categoryAnalysis spikeBill c2Env.historicalBills
            "data").zScore| ≤ 2 ∧
          defaultThreshold * 100 <
            (categoryAnalysis spikeBill c2Env.historicalBills
              "data").percentageChange)) ∧
      ¬((∃ a ∈ report.anomalies, a.category = "data" ∧
          a.type = AnomalyType.statistical) ∧
        (∃ a ∈ report.anomalies, a.category = "data" ∧
          a.type = AnomalyType.percentage_increase)) :=
  c2_category_rules c2Env defaultThreshold spikeBill "data" rfl
    (by simp [c2Env]) (by decide)

/-! ## C5 — scenario comparison -/

theorem scenarioEntry_id (env : Env) (bill : Bill) (i : Nat) (s : Scenario) :
    (scenarioEntry env bill i s).id = i + 1 := by
  unfold scenarioEntry
  split <;> rfl

theorem rankUpdate_error (env : Env) (bill : Bill) (scens : List Scenario)
    (r : ComparisonEntry) : (rankUpdate env bill scens r).error = r.error := by
  unfold rankUpdate
  split <;> rfl

theorem rankUpdate_saving (env : Env) (bill : Bill) (scens : List Scenario)
    (r : ComparisonEntry) : (rankUpdate env bill scens r).saving = r.saving := by
  unfold rankUpdate
  split <;> rfl

theorem rankUpdate_of_isNone (env : Env) (bill : Bill) (scens : List Scenario)
    (r : ComparisonEntry) (h : r.error.isNone) :
    rankUpdate env bill scens r =
      { r with
        rank := (comparisonSortedValid env bill scens).findIdx
          (fun x => x.id == r.id) + 1 } := by
  unfold rankUpdate
  rw [if_pos h]

theorem comparisonResults_map_id (env : Env) (bill : Bill)
    (scenarios : List Scenario) :
    (comparisonResults env bill scenarios).map (fun r => r.id) =
      (List.range scenarios.length).map (fun i => i + 1) := by
  unfold comparisonResults
  rw [List.map_map]
  have h : ((fun r : ComparisonEntry => r.id) ∘ fun p : Nat × Scenario =>
      scenarioEntry env bill p.1 p.2) = (fun i => i + 1) ∘ Prod.fst := by
    funext p
    exact scenarioEntry_id env bill p.1 p.2
  rw [h, ← List.map_map, List.enum_map_fst]

theorem comparisonResults_id_nodup (env : Env) (bill : Bill)
    (scenarios : List Scenario) :
    ((comparisonResults env bill scenarios).map (fun r => r.id)).Nodup := by
  rw [comparisonResults_map_id]
  exact (List.nodup_range _).map (fun a b h => by omega)

theorem comparisonValid_id_nodup (env : Env) (bill : Bill)
    (scenarios : List Scenario) :
    (((comparisonResults env bill scenarios).filter
        (fun r => r.error.isNone)).map (fun r => r.id)).Nodup :=
  List.Nodup.sublist ((List.filter_sublist _).map _)
    (comparisonResults_id_nodup env bill scenarios)

theorem comparisonSortedValid_id_nodup (env : Env) (bill : Bill)
    (scenarios : List Scenario) :
    ((comparisonSortedValid env bill scenarios).map (fun r => r.id)).Nodup := by
  have hperm := List.mergeSort_perm
    ((comparisonResults env bill scenarios).filter (fun r => r.error.isNone))
    savingDescLE
  exact ((hperm.map (fun r => r.id)).nodup_iff).mpr
    (comparisonValid_id_nodup env bill scenarios)

theorem savingDescLE_trans : ∀ (a b c : ComparisonEntry),
    savingDescLE a b → savingDescLE b c → savingDescLE a c := by
  intro a b c hab hbc
  simp only [savingDescLE, decide_eq_true_eq] at hab hbc ⊢
  exact le_trans hbc hab

theorem savingDescLE_total : ∀ (a b : ComparisonEntry),
    savingDescLE a b || savingDescLE b a := by
  intro a b
  simp only [savingDescLE, Bool.or_eq_true, decide_eq_true_eq]
  exact le_total b.saving a.saving

theorem comparisonSortedValid_sorted (env : Env) (bill : Bill)
    (scenarios : List Scenario) :
    List.Pairwise (fun a b => b.saving ≤ a.saving)
      (comparisonSortedValid env bill scenarios) := by
  have h := List.sorted_mergeSort savingDescLE_trans savingDescLE_total
    ((comparisonResults env bill scenarios).filter (fun r => r.error.isNone))
  exact h.imp (fun hab => by
    simpa [savingDescLE, decide_eq_true_eq] using hab)

theorem findIdx_id_eq : ∀ (V : List ComparisonEntry),
    (V.map (fun r => r.id)).Nodup → ∀ (j : Nat) (hj : j < V.length),
      V.findIdx (fun x => x.id == V[j].id) = j
  | [], _, j, hj => absurd hj (by simp)
  | v :: vs, _, 0, hj => by simp [List.findIdx_cons]
  | v :: vs, hnd, j + 1, hj => by
      rw [List.map_cons, List.nodup_cons] at hnd
      have hj' : j < vs.length := by simpa using hj
      have hne : (v.id == vs[j].id) = false := by
        rw [beq_eq_false_iff_ne]
        intro heq
        exact hnd.1 (List.mem_map.mpr ⟨vs[j], List.getElem_mem hj', heq.symm⟩)
      simp only [List.getElem_cons_succ, List.findIdx_cons, hne, cond_false]
      rw [findIdx_id_eq vs hnd.2 j hj']

theorem findIdx_id_mem {V : List ComparisonEntry}
    (hnd : (V.map (fun r => r.id)).Nodup) {r : ComparisonEntry} (hr : r ∈ V) :
    ∃ (j : Nat) (hj : j < V.length), V[j] = r ∧
      V.findIdx (fun x => x.id == r.id) = j := by
  obtain ⟨j, hj, hget⟩ := List.mem_iff_getElem.mp hr
  refine ⟨j, hj, hget, ?_⟩
  rw [← hget]
  exact findIdx_id_eq V hnd j hj

theorem c5_filter_scenarios (env : Env) (bill : Bill)
    (scens : List Scenario) :
    (compareScenariosCore env bill scens).scenarios.filter
        (fun r => r.error.isNone) =
      ((comparisonResults env bill scens).filter
        (fun r => r.error.isNone)).map (rankUpdate env bill scens) := by
  show ((comparisonResults env bill scens).map
      (rankUpdate env bill scens)).filter (fun r => r.error.isNone) = _
  rw [List.filter_map]
  congr 1
  apply List.filter_congr
  intro r hr
  simp [Function.comp, rankUpdate_error]

theorem c5_valid_ranks (env : Env) (bill : Bill) (scens : List Scenario) :
    (((compareScenariosCore env bill scens).scenarios.filter
        (fun r => r.error.isNone)).map (fun r => r.rank)).Perm
      (List.range' 1
        (((compareScenariosCore env bill scens).scenarios.filter
          (fun r => r.error.isNone)).length)) := by
  rw [c5_filter_scenarios, List.map_map, List.length_map]
  have hmapeq : ((comparisonResults env bill scens).filter
      (fun r => r.error.isNone)).map
        ((fun r : ComparisonEntry => r.rank) ∘ rankUpdate env bill scens) =
      ((comparisonResults env bill scens).filter
        (fun r => r.error.isNone)).map (fun r =>
          (comparisonSortedValid env bill scens).findIdx
            (fun x => x.id == r.id) + 1) := by
    apply List.map_congr_left
    intro r hr
    have hisNone : r.error.isNone = true := (List.mem_filter.mp hr).2
    simp [Function.comp, rankUpdate_of_isNone env bill scens r hisNone]
  rw [hmapeq]
  have hperm : ((comparisonResults env bill scens).filter
      (fun r => r.error.isNone)).Perm
      (comparisonSortedValid env bill scens) :=
    (List.mergeSort_perm _ savingDescLE).symm
  have hperm2 := hperm.map (fun r : ComparisonEntry =>
    (comparisonSortedValid env bill scens).findIdx
      (fun x => x.id == r.id) + 1)
  have hVlen : (comparisonSortedValid env bill scens).length =
      ((comparisonResults env bill scens).filter
        (fun r => r.error.isNone)).length :=
    hperm.symm.length_eq
  have heq : (comparisonSortedValid env bill scens).map
      (fun r : ComparisonEntry =>
        (comparisonSortedValid env bill scens).findIdx
          (fun x => x.id == r.id) + 1) =
      List.range' 1 (comparisonSortedValid env bill scens).length := by
    apply List.ext_getElem
    · simp
    · intro j h1 h2
      simp only [List.getElem_map, List.getElem_range']
      rw [findIdx_id_eq (comparisonSortedValid env bill scens)
        (comparisonSortedValid_id_nodup env bill scens) j (by simpa using h1)]
      omega
  rw [heq, hVlen] at hperm2
  exact hperm2

theorem c5_rank_order (env : Env) (bill : Bill) (scens : List Scenario) :
    ∀ r ∈ (compareScenariosCore env bill scens).scenarios,
    ∀ t ∈ (compareScenariosCore env bill scens).scenarios,
      r.error = none → t.error = none → r.rank < t.rank →
        t.saving ≤ r.saving := by
  intro r hr t ht hre hte hlt
  obtain ⟨r₀, hr₀mem, rfl⟩ := List.mem_map.mp hr
  obtain ⟨t₀, ht₀mem, rfl⟩ := List.mem_map.mp ht
  have hr₀none : r₀.error.isNone = true := by
    rw [Option.isNone_iff_eq_none, ← rankUpdate_error env bill scens r₀]
    exact hre
  have ht₀none : t₀.error.isNone = true := by
    rw [Option.isNone_iff_eq_none, ← rankUpdate_error env bill scens t₀]
    exact hte
  have hr₀valid : r₀ ∈ (comparisonResults env bill scens).filter
      (fun x => x.error.isNone) := List.mem_filter.mpr ⟨hr₀mem, hr₀none⟩
  have ht₀valid : t₀ ∈ (comparisonResults env bill scens).filter
      (fun x => x.error.isNone) := List.mem_filter.mpr ⟨ht₀mem, ht₀none⟩
  have hrV : r₀ ∈ comparisonSortedValid env bill scens :=
    (List.mergeSort_perm _ savingDescLE).mem_iff.mpr hr₀valid
  have htV : t₀ ∈ comparisonSortedValid env bill scens :=
    (List.mergeSort_perm _ savingDescLE).mem_iff.mpr ht₀valid
  obtain ⟨jr, hjr, hgetr, hfindr⟩ :=
    findIdx_id_mem (comparisonSortedValid_id_nodup env bill scens) hrV
  obtain ⟨jt, hjt, hgett, hfindt⟩ :=
    findIdx_id_mem (comparisonSortedValid_id_nodup env bill scens) htV
  have hranks : jr + 1 < jt + 1 := by
    rw [rankUpdate_of_isNone env bill scens r₀ hr₀none,
      rankUpdate_of_isNone env bill scens t₀ ht₀none] at hlt
    simpa [hfindr, hfindt] using hlt
  have hle : (comparisonSortedValid env bill scens)[jt].saving ≤
      (comparisonSortedValid env bill scens)[jr].saving :=
    List.pairwise_iff_getElem.mp
      (comparisonSortedValid_sorted env bill scens) jr jt hjr hjt (by omega)
  rw [hgetr, hgett] at hle
  rw [rankUpdate_saving, rankUpdate_saving]
  exact hle

theorem c5_errored (env : Env) (bill : Bill) (scens : List Scenario)
    (i : Nat) (s : Scenario) (e : String) (hs : scens[i]? = some s)
    (he : calculateWhatIf env s = Except.error e) :
    ∃ r, (compareScenariosCore env bill scens).scenarios[i]? = some r ∧
      r.rank = 999 ∧ r.error = some e ∧ r.saving = 0 ∧
      r.total = bill.total_amount := by
  have hres : (comparisonResults env bill scens)[i]? =
      some (scenarioEntry env bill i s) := by
    unfold comparisonResults
    rw [List.getElem?_map, List.getElem?_enum, hs]
    rfl
  have hentry : scenarioEntry env bill i s =
      { id := i + 1, saving := 0, total := bill.total_amount, rank := 999,
        error := some e } := by
    unfold scenarioEntry
    rw [he]
  refine ⟨scenarioEntry env bill i s, ?_, ?_, ?_, ?_, ?_⟩
  · show ((comparisonResults env bill scens).map
        (rankUpdate env bill scens))[i]? = some (scenarioEntry env bill i s)
    rw [List.getElem?_map, hres, Option.map_some', hentry]
    simp [rankUpdate]
  · rw [hentry]
  · rw [hentry]
  · rw [hentry]
  · rw [hentry]

/-- **C5.** With the current bill present, `compareScenarios` succeeds
on every list of up to 5 scenarios; each scenario whose
`calculateWhatIf` throws is recorded in place with rank 999, the thrown
message, zero saving and the current total instead of propagating; and
the successful results are sorted descending by saving with the dense
ranks `1..k` assigned along that order (a smaller rank never has a
smaller saving). -/
theorem c5_compare_scenarios (env : Env) (scenarios : List Scenario)
    (bill : Bill) (hbill : env.bill = some bill)
    (hlen : scenarios.length ≤ 5) :
    ∃ R : ComparisonResult, compareScenarios env scenarios = Except.ok R ∧
      R.scenarios.length = scenarios.length ∧
      (∀ (i : Nat) (s : Scenario) (e : String), scenarios[i]? = some s →
        calculateWhatIf env s = Except.error e →
        ∃ r : ComparisonEntry, R.scenarios[i]? = some r ∧ r.rank = 999 ∧
          r.error = some e ∧ r.saving = 0 ∧ r.total = bill.total_amount) ∧
      List.Pairwise (fun a b => b.saving ≤ a.saving)
        (comparisonSortedValid env bill scenarios) ∧
      ((R.scenarios.filter (fun r => r.error.isNone)).map
          (fun r => r.rank)).Perm
        (List.range' 1
          ((R.scenarios.filter (fun r => r.error.isNone)).length)) ∧
      (∀ r ∈ R.scenarios, ∀ t ∈ R.scenarios, r.error = none →
        t.error = none → r.rank < t.rank → t.saving ≤ r.saving) :=
  ⟨compareScenariosCore env bill scenarios,
    by simp [compareScenarios, hbill],
    by
      show ((comparisonResults env bill scenarios).map
        (rankUpdate env bill scenarios)).length = scenarios.length
      simp [comparisonResults],
    fun i s e hs he => c5_errored env bill scenarios i s e hs he,
    comparisonSortedValid_sorted env bill scenarios,
    c5_valid_ranks env bill scenarios,
    c5_rank_order env bill scenarios⟩

/-- Witness for C5 at a concrete environment with one failing and one
successful scenario. -/
theorem c5_compare_scenarios_witness :
    c5Env.bill = some c5Bill ∧ c5Scenarios.length ≤ 5 ∧
    (∃ R : ComparisonResult,
      compareScenarios c5Env c5Scenarios = Except.ok R ∧
      R.scenarios.length = c5Scenarios.length ∧
      (∀ (i : Nat) (s : Scenario) (e : String), c5Scenarios[i]? = some s →
        calculateWhatIf c5Env s = Except.error e →
        ∃ r : ComparisonEntry, R.scenarios[i]? = some r ∧ r.rank = 999 ∧
          r.error = some e ∧ r.saving = 0 ∧ r.total = c5Bill.total_amount) ∧
      List.Pairwise (fun a b => b.saving ≤ a.saving)
        (comparisonSortedValid c5Env c5Bill c5Scenarios) ∧
      ((R.scenarios.filter (fun r => r.error.isNone)).map
          (fun r => r.rank)).Perm
        (List.range' 1
          ((R.scenarios.filter (fun r => r.error.isNone)).length)) ∧
      (∀ r ∈ R.scenarios, ∀ t ∈ R.scenarios, r.error = none →
        t.error = none → r.rank < t.rank → t.saving ≤ r.saving)) :=
  ⟨rfl, by decide,
    c5_compare_scenarios c5Env c5Scenarios c5Bill rfl (by decide)⟩

end FaturaBackend
